import Mathlib

/-!
Shallow embedding of the mount-time bootstrap orchestrator in
`cvmfs/mountpoint.cc` (classes `FileSystem` and `MountPoint`).

C++ methods that mutate `this` and perform I/O become Lean functions of
shape `Env → State → Result × State × List Event`:
  * `Env` collects the external collaborators (file locks, the posix /
    ram / tiered / external cache constructors, the quota manager, the
    download and signature collaborators, the history database, string
    and path utilities) as oracle fields; the orchestration logic under
    verification is translated literally from the source.
  * the `List Event` is an audit trail of the externally visible actions
    the code performs, used to state "no later stage executed",
    "prior to any I/O", "cleanup invoked exactly once" and similar
    properties.
Machine integers: the only arithmetic where C++ wrap-around is reachable
is the `unsigned` max-TTL field; it is embedded as `Nat` reduced modulo
`2^32` at the multiplication site.
-/

/-- Boot outcome codes from `loader.h` used by `mountpoint.cc`.
`kFailUnknown` models the "not yet successful" default that both context
objects carry until their final construction stage completes. -/
inductive BootStatus where
  | kFailOk
  | kFailUnknown
  | kFailOptions
  | kFailCacheDir
  | kFailLockWorkspace
  | kFailQuota
  | kFailNfsMaps
  | kFailSignature
  | kFailWpad
  | kFailCatalog
  | kFailHistory
  deriving DecidableEq

/-- `FileSystem::Type`: fuse module vs. libcvmfs library mode. -/
inductive FsType where
  | kFsFuse
  | kFsLibrary
  deriving DecidableEq

/-- `MemoryKvStore::MemoryAllocator` for the ram cache. -/
inductive MemAlloc where
  | kMallocHeap
  | kMallocLibc
  deriving DecidableEq

/-- `shash::Any` as used here: either the null hash (`IsNull`) or a
concrete content hash, represented by its hex digest. -/
inductive RootHash where
  | null
  | hash (digest : String)
  deriving DecidableEq

/-- `history::History::Tag`: named, timestamped pointer to a root hash. -/
structure Tag where
  name : String
  root_hash : RootHash
  timestamp : Int
  deriving DecidableEq

/-- The tag database behind `history::SqliteHistory`. -/
structure TagDb where
  tags : List Tag
  deriving DecidableEq

/-- Modelled from the spec: `history::History::GetByName` (the history
engine is an external collaborator, `history_sqlite.cc` is not part of
this excerpt); the spec specifies "By explicit tag name: exact lookup". -/
def TagDb.getByName (db : TagDb) (n : String) : Option Tag :=
  db.tags.find? (fun t => t.name = n)

/-- Modelled from the spec: `history::History::GetByDate`; the spec
specifies "find the latest tag at or before that instant". -/
def TagDb.getByDate (db : TagDb) (d : Int) : Option Tag :=
  db.tags.foldl
    (fun acc t =>
      if t.timestamp ≤ d then
        match acc with
        | none => some t
        | some best => if best.timestamp < t.timestamp then some t else some best
      else acc)
    none

/-- Externally visible actions performed during bootstrap; the functions
below log them so that ordering / absence of effects can be stated. -/
inductive Event where
  | mkdirDeep (path : String)
  | tryLock (path : String)
  | blockingLock (path : String)
  | chdir (path : String)
  | statFile (path : String)
  | openFile (path : String)
  | createFile (path : String)
  | posixCacheCreate (path : String)
  | ramCacheCreate
  | tieredCreate
  | pluginCreate (locator : String)
  | externalCacheCreate
  | quotaCreate (shared : Bool) (limit threshold : Int)
  | quotaCleanup (threshold : Int)
  | acquireQuotaMgr
  | uuidCreate (path : String)
  | nfsMapsInit (dir : String)
  | registerVfs
  | signatureInit
  | loadPublicKeys
  | loadBlacklist (path : String)
  | downloadMgrInit
  | resolveProxy (desc : String)
  | probeGeo
  | cloneDownloadMgr
  | fetcherCreate (external : Bool)
  | catalogMgrCreate
  | manifestFetch
  | historyFetch
  | historyOpen (path : String)
  | catalogInit
  | catalogInitFixed
  | tracerActivate (file : String)
  deriving DecidableEq

/-- `OptionsManager`: configuration key/value store plus the boolean
interpretation of values and the config-repository lookup. -/
structure OptionsMgr where
  getValue : String → Option String
  isOn : String → Bool
  hasConfigRepository : String → Option String

/-- `OptionsManager::IsDefined`. -/
def OptionsMgr.isDefined (o : OptionsMgr) (key : String) : Bool :=
  (o.getValue key).isSome

/-- `FileSystem::PosixCacheSettings` (transient value). -/
structure PosixCacheSettings where
  is_shared : Bool := false
  avoid_rename : Bool := false
  quota_limit : Int := 0
  is_managed : Bool := false
  cache_path : String := ""
  cache_base_defined : Bool := false
  cache_dir_defined : Bool := false
  is_alien : Bool := false
  deriving DecidableEq

/-- The constructed cache manager tree: one of the four variants; a
tiered manager exclusively owns its upper and lower children. -/
inductive CacheMgr where
  | posix (cache_path : String) (alien : Bool) (avoid_rename : Bool)
  | ram (size_bytes : Nat) (nfiles : Nat) (alloc : MemAlloc)
  | tiered (upper lower : CacheMgr)
  | external (fd_connection : Nat) (nfiles : Nat)
  deriving DecidableEq

/-- Results and tunables of the external collaborators (file system
primitives, cache / quota / download / signature / history engines,
string utilities).  Each field models the return value of one external
call; the orchestration logic consuming them is translated from the
source. -/
structure Env where
  makeCanonicalPath : String → String
  str2Int64 : String → Int
  str2Uint64 : String → Nat
  memsize : Nat
  defaultQuotaLimit : Int
  defaultMaxTtlSec : Nat
  defaultKcacheTtlSec : Int
  tryLockFile : String → Int
  lockFile : String → Int
  lockErrno : String
  crashGuardErrno : String
  chdirOk : String → Bool
  fileStatExists : String → Bool
  crashGuardOpenOk : Bool
  mkdirDeepOk : String → Bool
  posixCacheCreateOk : String → Bool
  posixCacheCreateErrno : String
  pluginValid : String → Bool
  pluginErrMsg : String
  pluginFd : Nat
  externalCreateOk : Bool
  tieredCreateOk : Bool
  quotaCreateSharedOk : Bool
  quotaCreateOk : Bool
  quotaSize : Int
  quotaCapacity : Int
  quotaCleanupOk : Int → Bool
  nfsSupportCompiled : Bool
  nfsMapsInitOk : Bool
  findFilesJoined : String → String
  loadPublicRsaKeysOk : Bool
  loadTrustedCaCrlOk : Bool
  fileExists : String → Bool
  loadBlacklistOk : Bool
  resolveProxyDescription : String → String
  uidMapReadOk : Bool
  gidMapReadOk : Bool
  manifestFetchOk : Bool
  manifestHistoryHash : RootHash
  fetchFd : Int
  sqliteHistoryOpen : String → Option TagDb
  mkFromHexPtr : String → RootHash
  isoTimestamp2UtcTime : String → Int
  catalogInitOk : Bool
  catalogInitFixedOk : RootHash → Bool
  catalogTtlSec : Nat
  getVOMSAuthz : Bool

/-- `FileSystem::FileSystemInfo`. -/
structure FileSystemInfo where
  name : String
  exe_path : String
  type : FsType
  options_mgr : OptionsMgr
  wait_workspace : Bool
  foreground : Bool

/-- The `FileSystem` context object: the members of the C++ class that
the bootstrap logic reads or writes (statistics counters and sqlite
globals are external collaborators and omitted). -/
structure FileSystem where
  name : String
  exe_path : String
  type : FsType
  opts : OptionsMgr
  wait_workspace : Bool
  foreground : Bool
  boot_status : BootStatus := .kFailUnknown
  boot_error : String := ""
  nfs_mode_maps : Bool := false
  nfs_mode_ha : Bool := false
  nfs_maps_dir : String := ""
  workspace : String := ""
  workspace_fullpath : String := ""
  path_workspace_lock : String := ""
  path_crash_guard : String := ""
  fd_workspace_lock : Int := -1
  found_previous_crash : Bool := false
  cache_mgr_inst : String := ""
  constructed_instances : List String := []
  cache_mgr : Option CacheMgr := none
  has_uuid : Bool := false
  has_nfs_maps : Bool := false
  has_custom_sqlitevfs : Bool := false

def kDefaultCacheBase : String := "/var/lib/cvmfs"

def kDefaultCacheMgrInstance : String := "default"

def kDefaultNfiles : Nat := 8192

/-- The `FileSystem` constructor (member initializer list); the global
singleton assertion and uid/gid globals are process state outside this
embedding. -/
def FileSystem.init (info : FileSystemInfo) : FileSystem :=
  { name := info.name
    exe_path := info.exe_path
    type := info.type
    opts := info.options_mgr
    wait_workspace := info.wait_workspace
    foreground := info.foreground }

/-- Character set accepted by `sanitizer::CacheInstanceSanitizer`.
Modelled from the spec: the sanitizer lives in `sanitizer.cc` (not part
of this excerpt); the spec and the error message in the source fix the
set to letters, digits and underscore. -/
def validInstanceChar (c : Char) : Bool :=
  c.isAlpha || c.isDigit || c = '_'

/-- `FileSystem::CheckInstanceName`.  Note the source records no
(code, message) for the over-length case: it returns `false` leaving
`boot_error_` / `boot_status_` untouched. -/
def FileSystem.CheckInstanceName (fs : FileSystem) (inst : String) :
    Bool × FileSystem :=
  if inst.length > 24 then
    (false, fs)
  else if ¬ (inst.toList.all validInstanceChar) then
    (false, { fs with
      boot_error := "invalid instance name (" ++ inst ++ "), " ++
                    "only characters a-z, A-Z, 0-9, _ are allowed"
      boot_status := .kFailCacheDir })
  else
    (true, fs)

/-- `FileSystem::CheckPosixCacheSettings`. -/
def FileSystem.CheckPosixCacheSettings (fs : FileSystem)
    (settings : PosixCacheSettings) : Bool × FileSystem :=
  if settings.is_alien ∧ settings.is_shared then
    (false, { fs with
      boot_error := "Failure: shared local disk cache and alien cache mutually " ++
                    "exclusive. Please turn off shared local disk cache."
      boot_status := .kFailOptions })
  else if settings.is_alien ∧ settings.is_managed then
    (false, { fs with
      boot_error := "Failure: quota management and alien cache mutually " ++
                    "exclusive. Please turn off quota limit."
      boot_status := .kFailOptions })
  else if fs.type = .kFsLibrary ∧ (settings.is_shared ∨ settings.is_managed) then
    (false, { fs with
      boot_error := "Failure: libcvmfs supports only unmanaged exclusive cache " ++
                    "or alien cache."
      boot_status := .kFailOptions })
  else if settings.cache_base_defined ∧ settings.cache_dir_defined then
    (false, { fs with
      boot_error := "'CVMFS_CACHE_BASE' and 'CVMFS_CACHE_DIR' are mutually exclusive"
      boot_status := .kFailOptions })
  else
    (true, fs)

/-- `FileSystem::MkCacheParm`: injects the instance name so that
`CVMFS_CACHE_FOO_BAR` becomes `CVMFS_CACHE_<INSTANCE>_FOO_BAR`; the
default instance keeps compatibility parameter names. -/
def FileSystem.MkCacheParm (fs : FileSystem)
    (generic_parameter inst : String) : String :=
  if inst = kDefaultCacheMgrInstance then
    if generic_parameter = "CVMFS_CACHE_SHARED" ∧
        ¬ fs.opts.isDefined generic_parameter then
      "CVMFS_SHARED_CACHE"
    else if generic_parameter = "CVMFS_CACHE_ALIEN" ∧
        ¬ fs.opts.isDefined generic_parameter then
      "CVMFS_ALIEN_CACHE"
    else if generic_parameter = "CVMFS_CACHE_SERVER_MODE" ∧
        ¬ fs.opts.isDefined generic_parameter then
      "CVMFS_SERVER_CACHE_MODE"
    else if generic_parameter = "CVMFS_CACHE_QUOTA_LIMIT" ∧
        ¬ fs.opts.isDefined generic_parameter then
      "CVMFS_QUOTA_LIMIT"
    else
      generic_parameter
  else
    "CVMFS_CACHE_" ++ inst ++ "_" ++ generic_parameter.drop 12

/-- `FileSystem::DeterminePosixCacheSettings`. -/
def FileSystem.DeterminePosixCacheSettings (env : Env) (fs : FileSystem)
    (inst : String) : PosixCacheSettings :=
  let s0 : PosixCacheSettings := {}
  let s1 := match fs.opts.getValue (fs.MkCacheParm "CVMFS_CACHE_SHARED" inst) with
    | some v => if fs.opts.isOn v then { s0 with is_shared := true } else s0
    | none => s0
  let s2 := match fs.opts.getValue (fs.MkCacheParm "CVMFS_CACHE_SERVER_MODE" inst) with
    | some v => if fs.opts.isOn v then { s1 with avoid_rename := true } else s1
    | none => s1
  let s3 := if fs.type = .kFsFuse
    then { s2 with quota_limit := env.defaultQuotaLimit } else s2
  let s4 := match fs.opts.getValue (fs.MkCacheParm "CVMFS_CACHE_QUOTA_LIMIT" inst) with
    | some v => { s3 with quota_limit := env.str2Int64 v * 1024 * 1024 }
    | none => s3
  let s5 := if s4.quota_limit > 0 then { s4 with is_managed := true } else s4
  let s6 := { s5 with cache_path := kDefaultCacheBase }
  let s7 := match fs.opts.getValue (fs.MkCacheParm "CVMFS_CACHE_BASE" inst) with
    | some v => { s6 with cache_path := env.makeCanonicalPath v,
                          cache_base_defined := true }
    | none => s6
  let s8 := if s7.is_shared
    then { s7 with cache_path := s7.cache_path ++ "/shared" }
    else { s7 with cache_path := s7.cache_path ++ "/" ++ fs.name }
  let s9 := match fs.opts.getValue (fs.MkCacheParm "CVMFS_CACHE_DIR" inst) with
    | some v => { s8 with cache_dir_defined := true, cache_path := v }
    | none => s8
  let s10 := match fs.opts.getValue (fs.MkCacheParm "CVMFS_CACHE_ALIEN" inst) with
    | some v => { s9 with is_alien := true, cache_path := v }
    | none => s9
  if s10.cache_path = fs.workspace_fullpath
    then { s10 with cache_path := "." } else s10

/-- `FileSystem::DetermineNfsMode`. -/
def FileSystem.DetermineNfsMode (fs : FileSystem) : Bool × FileSystem :=
  let fs1 := match fs.opts.getValue "CVMFS_NFS_SOURCE" with
    | some v =>
      if fs.opts.isOn v then
        let fsm := { fs with nfs_mode_maps := true }
        match fs.opts.getValue "CVMFS_NFS_SHARED" with
        | some dir => { fsm with nfs_mode_ha := true, nfs_maps_dir := dir }
        | none => fsm
      else fs
    | none => fs
  if fs1.type = .kFsLibrary ∧ (fs1.nfs_mode_maps ∨ fs1.nfs_mode_ha) then
    (false, { fs1 with
      boot_error := "Failure: libcvmfs does not support NFS export."
      boot_status := .kFailOptions })
  else
    (true, fs1)

/-- `FileSystem::LockWorkspace`.  `TryLockFile` returns a file
descriptor (≥ 0), -1 on error, or -2 when another process holds the
lock (the source asserts no other value occurs). -/
def FileSystem.LockWorkspace (env : Env) (fs : FileSystem) :
    Bool × FileSystem × List Event :=
  let path := fs.workspace ++ "/lock." ++ fs.name
  let fd := env.tryLockFile path
  let fs := { fs with path_workspace_lock := path, fd_workspace_lock := fd }
  if fd ≥ 0 then
    (true, fs, [.tryLock path])
  else if fd = -1 then
    (false, { fs with
      boot_error := "could not acquire workspace lock (" ++ env.lockErrno ++ ")"
      boot_status := .kFailCacheDir }, [.tryLock path])
  else if ¬ fs.wait_workspace then
    (false, { fs with boot_status := .kFailLockWorkspace }, [.tryLock path])
  else
    let fd2 := env.lockFile path
    let fs := { fs with fd_workspace_lock := fd2 }
    if fd2 < 0 then
      (false, { fs with
        boot_error := "could not acquire workspace lock (" ++ env.lockErrno ++ ")"
        boot_status := .kFailCacheDir }, [.tryLock path, .blockingLock path])
    else
      (true, fs, [.tryLock path, .blockingLock path])

/-- `FileSystem::SetupCwd`. -/
def FileSystem.SetupCwd (env : Env) (fs : FileSystem) :
    Bool × FileSystem × List Event :=
  if fs.type = .kFsFuse then
    if env.chdirOk fs.workspace then
      (true, { fs with workspace := "." }, [.chdir fs.workspace])
    else
      (false, { fs with
        boot_error := "workspace " ++ fs.workspace ++ " is unavailable"
        boot_status := .kFailCacheDir }, [.chdir fs.workspace])
  else
    (true, fs, [])

/-- `FileSystem::SetupCrashGuard`. -/
def FileSystem.SetupCrashGuard (env : Env) (fs : FileSystem) :
    Bool × FileSystem × List Event :=
  let path := fs.workspace ++ "/running." ++ fs.name
  let fs := { fs with path_crash_guard := path }
  let fs := if env.fileStatExists path
    then { fs with found_previous_crash := true } else fs
  if env.crashGuardOpenOk then
    (true, fs, [.statFile path, .openFile path])
  else
    (false, { fs with
      boot_error := "could not open running sentinel (" ++
                    env.crashGuardErrno ++ ")"
      boot_status := .kFailCacheDir }, [.statFile path, .openFile path])

/-- The workspace path precedence chain of `FileSystem::SetupWorkspace`:
explicit workspace override > explicit cache directory > cache base
(canonicalized) + "/shared" or "/" + name. -/
def FileSystem.ResolveWorkspaceDir (env : Env) (fs : FileSystem) : String :=
  let base := match fs.opts.getValue "CVMFS_CACHE_BASE" with
    | some v => env.makeCanonicalPath v
    | none => kDefaultCacheBase
  let withName :=
    if ((fs.opts.getValue "CVMFS_SHARED_CACHE").map fs.opts.isOn).getD false
    then base ++ "/shared"
    else base ++ "/" ++ fs.name
  let wsA := match fs.opts.getValue "CVMFS_CACHE_DIR" with
    | some v => v
    | none => withName
  match fs.opts.getValue "CVMFS_WORKSPACE" with
  | some v => v
  | none => wsA

/-- `FileSystem::SetupWorkspace`: resolves the workspace path with the
same precedence as the cache path, creates it, locks it, changes into
it and writes the crash sentinel. -/
def FileSystem.SetupWorkspace (env : Env) (fs : FileSystem) :
    Bool × FileSystem × List Event :=
  if (fs.opts.getValue "CVMFS_CACHE_DIR").isSome ∧
      fs.opts.isDefined "CVMFS_CACHE_BASE" then
    (false, { fs with
      boot_error := "'CVMFS_CACHE_BASE' and 'CVMFS_CACHE_DIR' are mutually exclusive"
      boot_status := .kFailOptions }, [])
  else
    let ws := FileSystem.ResolveWorkspaceDir env fs
    let fs := { fs with workspace := ws, workspace_fullpath := ws }
    if ¬ env.mkdirDeepOk ws then
      (false, { fs with
        boot_error := "cannot create workspace directory " ++ ws
        boot_status := .kFailCacheDir }, [.mkdirDeep ws])
    else
      let r1 := FileSystem.LockWorkspace env fs
      if ¬ r1.1 then
        (false, r1.2.1, Event.mkdirDeep ws :: r1.2.2)
      else
        let r2 := FileSystem.SetupCwd env r1.2.1
        if ¬ r2.1 then
          (false, r2.2.1, Event.mkdirDeep ws :: r1.2.2 ++ r2.2.2)
        else
          let r3 := FileSystem.SetupCrashGuard env r2.2.1
          (r3.1, r3.2.1, Event.mkdirDeep ws :: r1.2.2 ++ r2.2.2 ++ r3.2.2)

/-- `RoundUp8` from `util/string.h`: round up to a multiple of 8. -/
def RoundUp8 (size : Nat) : Nat :=
  (size + 7) / 8 * 8

/-- `FileSystem::SetupPosixQuotaMgr`: constructs the quota manager
(shared or exclusive), and if the cache is already beyond capacity runs
a synchronous cleanup down to the threshold before proceeding.  The
source asserts `settings.quota_limit >= 0` on entry. -/
def FileSystem.SetupPosixQuotaMgr (env : Env) (fs : FileSystem)
    (settings : PosixCacheSettings) : Bool × FileSystem × List Event :=
  let quota_threshold : Int := settings.quota_limit / 2
  let createOk := if settings.is_shared
    then env.quotaCreateSharedOk else env.quotaCreateOk
  let evCreate := Event.quotaCreate settings.is_shared
    settings.quota_limit quota_threshold
  if ¬ createOk then
    (false, { fs with
      boot_error := if settings.is_shared
        then "Failed to initialize shared lru cache"
        else "Failed to initialize lru cache"
      boot_status := .kFailQuota }, [evCreate])
  else if env.quotaSize > env.quotaCapacity then
    if ¬ env.quotaCleanupOk quota_threshold then
      (false, { fs with
        boot_error := "Failed to clean up cache"
        boot_status := .kFailQuota },
       [evCreate, .quotaCleanup quota_threshold])
    else
      (true, fs, [evCreate, .quotaCleanup quota_threshold, .acquireQuotaMgr])
  else
    (true, fs, [evCreate, .acquireQuotaMgr])

/-- `FileSystem::SetupPosixCacheMgr`. -/
def FileSystem.SetupPosixCacheMgr (env : Env) (fs : FileSystem)
    (inst : String) : Option CacheMgr × FileSystem × List Event :=
  let settings := FileSystem.DeterminePosixCacheSettings env fs inst
  let rchk := FileSystem.CheckPosixCacheSettings fs settings
  if ¬ rchk.1 then
    (none, rchk.2, [])
  else if ¬ env.posixCacheCreateOk settings.cache_path then
    (none, { fs with
      boot_error := "Failed to setup posix cache '" ++ inst ++ "' in " ++
                    settings.cache_path ++ ": " ++ env.posixCacheCreateErrno
      boot_status := .kFailCacheDir },
     [.posixCacheCreate settings.cache_path])
  else
    let cm := CacheMgr.posix settings.cache_path settings.is_alien
      settings.avoid_rename
    -- sentinel file; failure tolerated only for an alien (read-only) cache
    let evs := [Event.posixCacheCreate settings.cache_path,
                Event.createFile (settings.cache_path ++ "/.cvmfscache")]
    if settings.is_managed then
      let rq := FileSystem.SetupPosixQuotaMgr env fs settings
      if ¬ rq.1 then
        (none, rq.2.1, evs ++ rq.2.2)
      else
        (some cm, rq.2.1, evs ++ rq.2.2)
    else
      (some cm, fs, evs)

/-- `FileSystem::SetupRamCacheMgr`.  `new RamCacheManager` cannot return
NULL, so the corresponding dead error branch of the source is not
reachable here either. -/
def FileSystem.SetupRamCacheMgr (env : Env) (fs : FileSystem)
    (inst : String) : Option CacheMgr × FileSystem × List Event :=
  let nfiles := match fs.opts.getValue "CVMFS_NFILES" with
    | some v => env.str2Uint64 v
    | none => kDefaultNfiles
  let sz_cache_bytes := match fs.opts.getValue (fs.MkCacheParm "CVMFS_CACHE_SIZE" inst) with
    | some v =>
      if v.endsWith "%"
      then env.memsize * env.str2Uint64 v / 100
      else env.str2Uint64 v * 1024 * 1024
    | none => env.memsize / 2 ^ 5
  match fs.opts.getValue (fs.MkCacheParm "CVMFS_CACHE_MALLOC" inst) with
  | some v =>
    if v = "libc" then
      (some (.ram (RoundUp8 (max (200 * 1024 * 1024) sz_cache_bytes)) nfiles .kMallocLibc),
       fs, [.ramCacheCreate, .acquireQuotaMgr])
    else if v = "heap" then
      (some (.ram (RoundUp8 (max (200 * 1024 * 1024) sz_cache_bytes)) nfiles .kMallocHeap),
       fs, [.ramCacheCreate, .acquireQuotaMgr])
    else
      (none, { fs with
        boot_error := "Failure: unknown malloc " ++
          fs.MkCacheParm "CVMFS_CACHE_MALLOC" inst ++ "=" ++ v
        boot_status := .kFailOptions }, [])
  | none =>
    (some (.ram (RoundUp8 (max (200 * 1024 * 1024) sz_cache_bytes)) nfiles .kMallocHeap),
     fs, [.ramCacheCreate, .acquireQuotaMgr])

/-- `FileSystem::SetupExternalCacheMgr`. -/
def FileSystem.SetupExternalCacheMgr (env : Env) (fs : FileSystem)
    (inst : String) : Option CacheMgr × FileSystem × List Event :=
  let nfiles := match fs.opts.getValue "CVMFS_NFILES" with
    | some v => env.str2Uint64 v
    | none => kDefaultNfiles
  match fs.opts.getValue (fs.MkCacheParm "CVMFS_CACHE_LOCATOR" inst) with
  | none =>
    (none, { fs with
      boot_error := fs.MkCacheParm "CVMFS_CACHE_LOCATOR" inst ++ " missing"
      boot_status := .kFailCacheDir }, [])
  | some locator =>
    if ¬ env.pluginValid locator then
      (none, { fs with
        boot_error := env.pluginErrMsg
        boot_status := .kFailCacheDir }, [.pluginCreate locator])
    else if ¬ env.externalCreateOk then
      (none, { fs with
        boot_error := "failed to create external cache manager for " ++ inst
        boot_status := .kFailCacheDir },
       [.pluginCreate locator, .externalCacheCreate])
    else
      (some (.external env.pluginFd nfiles), fs,
       [.pluginCreate locator, .externalCacheCreate, .acquireQuotaMgr])

/-- `FileSystem::SetupCacheMgr`: recursive resolution of a named cache
instance.  `constructed_instances_` is the cycle-detection set;
re-entering an instance in it is fatal.  The C++ recursion is bounded by
that set; here a fuel parameter (first argument, so the recursion stays
structural and kernel-reducible) bounds it, every claim supplying
enough fuel.  The body of `SetupTieredCacheMgr` is inlined in the
"tiered" branch; the standalone definition below restates it. -/
def FileSystem.SetupCacheMgr (env : Env) :
    Nat → FileSystem → String → Option CacheMgr × FileSystem × List Event
  | 0, fs, _ => (none, fs, [])
  | fuel + 1, fs, inst =>
    if fs.constructed_instances.contains inst then
      (none, { fs with
        boot_error := "circular cache definition: " ++ inst
        boot_status := .kFailCacheDir }, [])
    else
      let fs := { fs with constructed_instances := inst :: fs.constructed_instances }
      let instance_type :=
        if inst = kDefaultCacheMgrInstance then "posix"
        else (fs.opts.getValue (fs.MkCacheParm "CVMFS_CACHE_TYPE" inst)).getD ""
      if instance_type = "posix" then
        FileSystem.SetupPosixCacheMgr env fs inst
      else if instance_type = "ram" then
        FileSystem.SetupRamCacheMgr env fs inst
      else if instance_type = "tiered" then
        -- `FileSystem::SetupTieredCacheMgr`, inlined
        match fs.opts.getValue (fs.MkCacheParm "CVMFS_CACHE_UPPER" inst) with
        | none =>
          (none, { fs with
            boot_error := fs.MkCacheParm "CVMFS_CACHE_UPPER" inst ++ " missing"
            boot_status := .kFailOptions }, [])
        | some upper_name =>
          let ru := FileSystem.SetupCacheMgr env fuel fs upper_name
          match ru.1 with
          | none => (none, ru.2.1, ru.2.2)
          | some upper =>
            match ru.2.1.opts.getValue (ru.2.1.MkCacheParm "CVMFS_CACHE_LOWER" inst) with
            | none =>
              (none, { ru.2.1 with
                boot_error := ru.2.1.MkCacheParm "CVMFS_CACHE_LOWER" inst ++ " missing"
                boot_status := .kFailOptions }, ru.2.2)
            | some lower_name =>
              let rl := FileSystem.SetupCacheMgr env fuel ru.2.1 lower_name
              match rl.1 with
              | none => (none, rl.2.1, ru.2.2 ++ rl.2.2)
              | some lower =>
                if ¬ env.tieredCreateOk then
                  (none, { rl.2.1 with
                    boot_error := "Failed to setup tiered cache manager " ++ inst
                    boot_status := .kFailCacheDir },
                   ru.2.2 ++ rl.2.2 ++ [.tieredCreate])
                else
                  (some (.tiered upper lower), rl.2.1,
                   ru.2.2 ++ rl.2.2 ++ [.tieredCreate])
      else if instance_type = "external" then
        FileSystem.SetupExternalCacheMgr env fs inst
      else
        (none, { fs with
          boot_error := "invalid cache manager type for '" ++ inst ++ "':" ++
                        instance_type
          boot_status := .kFailCacheDir }, [])

/-- `FileSystem::SetupTieredCacheMgr`: resolves the named upper and
lower child instances (each via `SetupCacheMgr`) and composes them into
a tiered manager owning both children (the same code is inlined in the
"tiered" branch of `SetupCacheMgr` above). -/
def FileSystem.SetupTieredCacheMgr (env : Env) (fs : FileSystem)
    (inst : String) (fuel : Nat) : Option CacheMgr × FileSystem × List Event :=
  match fs.opts.getValue (fs.MkCacheParm "CVMFS_CACHE_UPPER" inst) with
  | none =>
    (none, { fs with
      boot_error := fs.MkCacheParm "CVMFS_CACHE_UPPER" inst ++ " missing"
      boot_status := .kFailOptions }, [])
  | some upper_name =>
    let ru := FileSystem.SetupCacheMgr env fuel fs upper_name
    match ru.1 with
    | none => (none, ru.2.1, ru.2.2)
    | some upper =>
      match ru.2.1.opts.getValue (ru.2.1.MkCacheParm "CVMFS_CACHE_LOWER" inst) with
      | none =>
        (none, { ru.2.1 with
          boot_error := ru.2.1.MkCacheParm "CVMFS_CACHE_LOWER" inst ++ " missing"
          boot_status := .kFailOptions }, ru.2.2)
      | some lower_name =>
        let rl := FileSystem.SetupCacheMgr env fuel ru.2.1 lower_name
        match rl.1 with
        | none => (none, rl.2.1, ru.2.2 ++ rl.2.2)
        | some lower =>
          if ¬ env.tieredCreateOk then
            (none, { rl.2.1 with
              boot_error := "Failed to setup tiered cache manager " ++ inst
              boot_status := .kFailCacheDir },
             ru.2.2 ++ rl.2.2 ++ [.tieredCreate])
          else
            (some (.tiered upper lower), rl.2.1,
             ru.2.2 ++ rl.2.2 ++ [.tieredCreate])

/-- `FileSystem::TriageCacheMgr`: validates the primary instance name
and resolves it. -/
def FileSystem.TriageCacheMgr (env : Env) (fuel : Nat) (fs0 : FileSystem) :
    Bool × FileSystem × List Event :=
  let fs := { fs0 with cache_mgr_inst := kDefaultCacheMgrInstance }
  let primary := (fs.opts.getValue "CVMFS_CACHE_PRIMARY").getD ""
  if primary ≠ "" then
    let rn := FileSystem.CheckInstanceName fs primary
    if ¬ rn.1 then
      (false, rn.2, [])
    else
      let fs1 := { rn.2 with cache_mgr_inst := primary }
      let rc := FileSystem.SetupCacheMgr env fuel fs1 primary
      (rc.1.isSome, { rc.2.1 with cache_mgr := rc.1 }, rc.2.2)
  else
    let rc := FileSystem.SetupCacheMgr env fuel fs fs.cache_mgr_inst
    (rc.1.isSome, { rc.2.1 with cache_mgr := rc.1 }, rc.2.2)

/-- `FileSystem::SetupUuid`: loads or creates the process UUID; never a
boot failure (falls back to a fresh in-memory UUID). -/
def FileSystem.SetupUuid (fs : FileSystem) : FileSystem × List Event :=
  ({ fs with has_uuid := true }, [.uuidCreate (fs.workspace ++ "/uuid")])

/-- `FileSystem::SetupNfsMaps` (with `CVMFS_NFS_SUPPORT` compiled in if
`env.nfsSupportCompiled`; otherwise the method is a no-op returning
true, mirroring the `#else` branch). -/
def FileSystem.SetupNfsMaps (env : Env) (fs : FileSystem) :
    Bool × FileSystem × List Event :=
  if ¬ env.nfsSupportCompiled then
    (true, fs, [])
  else
    let fs := if ¬ fs.nfs_mode_ha then { fs with nfs_maps_dir := fs.workspace } else fs
    match fs.cache_mgr with
    | some (.posix cache_path _ _) =>
      let no_nfs_sentinel := cache_path ++ "/no_nfs_maps." ++ fs.name
      if ¬ fs.nfs_mode_maps then
        -- might be a read-only cache; creation failure tolerated if alien
        (true, fs, [.createFile no_nfs_sentinel])
      else if env.fileExists no_nfs_sentinel then
        (false, { fs with
          boot_error := "Cache was used without NFS maps before. " ++
                        "It has to be wiped out."
          boot_status := .kFailNfsMaps }, [.statFile no_nfs_sentinel])
      else
        let inode_cache_dir := fs.nfs_maps_dir ++ "/nfs_maps." ++ fs.name
        if ¬ env.mkdirDeepOk inode_cache_dir then
          (false, { fs with
            boot_error := "Failed to initialize NFS maps"
            boot_status := .kFailNfsMaps },
           [.statFile no_nfs_sentinel, .mkdirDeep inode_cache_dir])
        else if ¬ env.nfsMapsInitOk then
          (false, { fs with
            boot_error := "Failed to initialize NFS maps"
            boot_status := .kFailNfsMaps },
           [.statFile no_nfs_sentinel, .mkdirDeep inode_cache_dir,
            .nfsMapsInit inode_cache_dir])
        else
          (true, { fs with has_nfs_maps := true },
           [.statFile no_nfs_sentinel, .mkdirDeep inode_cache_dir,
            .nfsMapsInit inode_cache_dir])
    | _ =>
      if fs.nfs_mode_maps then
        (false, { fs with
          boot_error := "NFS source only works with POSIX cache manager."
          boot_status := .kFailNfsMaps }, [])
      else
        (true, fs, [])

/-- `FileSystem::Create`: the ordered construction sequence of the
process-wide context.  Always returns the context object; a failing
stage stops the sequence with that stage's outcome recorded (logging,
statistics and sqlite configuration are infallible external stages). -/
def FileSystem.Create (env : Env) (info : FileSystemInfo) (fuel : Nat) :
    FileSystem × List Event :=
  let fs0 := FileSystem.init info
  -- SetupLogging / CreateStatistics / SetupSqlite: external, infallible
  let r1 := FileSystem.DetermineNfsMode fs0
  if ¬ r1.1 then (r1.2, []) else
  let r2 := FileSystem.SetupWorkspace env r1.2
  if ¬ r2.1 then (r2.2.1, r2.2.2) else
  -- sqlite temp directory redirected to the workspace (global variable)
  let r3 := FileSystem.TriageCacheMgr env fuel r2.2.1
  if ¬ r3.1 then (r3.2.1, r2.2.2 ++ r3.2.2) else
  let r4 := FileSystem.SetupUuid r3.2.1
  let r5 := FileSystem.SetupNfsMaps env r4.1
  if ¬ r5.1 then (r5.2.1, r2.2.2 ++ r3.2.2 ++ r4.2 ++ r5.2.2) else
  let fs := { r5.2.1 with has_custom_sqlitevfs := true }
  ({ fs with boot_status := .kFailOk },
   r2.2.2 ++ r3.2.2 ++ r4.2 ++ r5.2.2 ++ [.registerVfs])

/-- The `MountPoint` context object: the members of the C++ class that
the bootstrap logic reads or writes.  Owned sub-collaborators are
tracked as booleans (constructed or not); `max_ttl_sec_` is the
`unsigned` runtime tunable (mutations are reduced modulo `2^32`). -/
structure MountPoint where
  fqrn : String
  file_system : FileSystem
  opts : OptionsMgr
  boot_status : BootStatus := .kFailUnknown
  boot_error : String := ""
  has_statistics : Bool := false
  has_authz : Bool := false
  has_backoff_throttle : Bool := false
  has_signature_mgr : Bool := false
  has_download_mgr : Bool := false
  has_external_download_mgr : Bool := false
  has_fetcher : Bool := false
  has_external_fetcher : Bool := false
  has_inode_annot : Bool := false
  has_catalog_mgr : Bool := false
  has_tracer : Bool := false
  tracer_active : Bool := false
  has_tables : Bool := false
  fixed_catalog : Bool := false
  repository_tag : String := ""
  max_ttl_sec : Nat := 0
  kcache_timeout_sec : Int := 0
  hide_magic_xattrs : Bool := false
  has_membership_req : Bool := false

/-- The `MountPoint` constructor: `option_mgr` may be absent, in which
case the file system's option manager is used (as in
`MountPoint::Create`). -/
def MountPoint.init (env : Env) (fqrn : String) (file_system : FileSystem)
    (options_mgr : Option OptionsMgr) : MountPoint :=
  { fqrn := fqrn
    file_system := file_system
    opts := options_mgr.getD file_system.opts
    max_ttl_sec := env.defaultMaxTtlSec
    kcache_timeout_sec := env.defaultKcacheTtlSec }

def kDefaultBlacklist : String := "/etc/cvmfs/blacklist"

/-- `MountPoint::CheckBlacklists`. -/
def MountPoint.CheckBlacklists (env : Env) (mp : MountPoint) :
    Bool × MountPoint × List Event :=
  let blacklist := (mp.opts.getValue "CVMFS_BLACKLIST").getD kDefaultBlacklist
  let r1 : Bool × List Event :=
    if env.fileExists blacklist then
      (env.loadBlacklistOk, [.loadBlacklist blacklist])
    else
      (true, [])
  if ¬ r1.1 then
    (false, { mp with
      boot_error := "failed to load blacklist " ++ blacklist
      boot_status := .kFailSignature }, r1.2)
  else
    match mp.opts.hasConfigRepository mp.fqrn with
    | some config_repository_path =>
      if env.fileExists (config_repository_path ++ "blacklist") then
        if ¬ env.loadBlacklistOk then
          (false, { mp with
            boot_error := "failed to load blacklist from config repository"
            boot_status := .kFailSignature },
           r1.2 ++ [.loadBlacklist (config_repository_path ++ "blacklist")])
        else
          (true, mp, r1.2 ++ [.loadBlacklist (config_repository_path ++ "blacklist")])
      else
        (true, mp, r1.2)
    | none => (true, mp, r1.2)

/-- `MountPoint::CreateSignatureManager`: the signature manager object
itself is constructed before any key material is loaded. -/
def MountPoint.CreateSignatureManager (env : Env) (mp : MountPoint) :
    Bool × MountPoint × List Event :=
  let mp := { mp with has_signature_mgr := true }
  if ¬ env.loadPublicRsaKeysOk then
    (false, { mp with
      boot_error := "failed to load public key(s)"
      boot_status := .kFailSignature }, [.signatureInit, .loadPublicKeys])
  else
    match mp.opts.getValue "CVMFS_TRUSTED_CERTS" with
    | some _ =>
      if ¬ env.loadTrustedCaCrlOk then
        (false, { mp with
          boot_error := "failed to load trusted certificates"
          boot_status := .kFailSignature }, [.signatureInit, .loadPublicKeys])
      else
        (true, mp, [.signatureInit, .loadPublicKeys])
    | none => (true, mp, [.signatureInit, .loadPublicKeys])

/-- `MountPoint::ReplaceHosts`. -/
def MountPoint.ReplaceHosts (mp : MountPoint) (hosts : String) : String :=
  let org := ((mp.fqrn.splitOn ".").headD "")
  ((hosts.replace "@org@" org).replace "@fqrn@" mp.fqrn)

/-- `MountPoint::SetupExternalDownloadMgr`: clone of the primary
download manager with its own timeout / proxy settings; empty external
proxy resolution is fatal (`kFailWpad`). -/
def MountPoint.SetupExternalDownloadMgr (env : Env) (mp : MountPoint) :
    Bool × MountPoint × List Event :=
  let mp := { mp with has_external_download_mgr := true }
  match mp.opts.getValue "CVMFS_EXTERNAL_HTTP_PROXY" with
  | some v =>
    if env.resolveProxyDescription v = "" then
      (false, { mp with
        boot_error := "failed to discover external HTTP proxy servers"
        boot_status := .kFailWpad }, [.cloneDownloadMgr, .resolveProxy v])
    else
      (true, mp, [.cloneDownloadMgr, .resolveProxy v])
  | none => (true, mp, [.cloneDownloadMgr])

/-- `MountPoint::CreateDownloadManagers`: constructs and tunes the
download collaborator; an empty resolved proxy chain aborts with the
proxy-discovery failure code. -/
def MountPoint.CreateDownloadManagers (env : Env) (mp : MountPoint) :
    Bool × MountPoint × List Event :=
  let mp := { mp with has_download_mgr := true }
  -- host chain, DNS tuning, HTTP tuning, proxy templates: external tuning
  let proxies := (mp.opts.getValue "CVMFS_HTTP_PROXY").getD ""
  let resolved := env.resolveProxyDescription proxies
  if resolved = "" then
    (false, { mp with
      boot_error := "failed to discover HTTP proxy servers"
      boot_status := .kFailWpad }, [.downloadMgrInit, .resolveProxy proxies])
  else
    let geo := ((mp.opts.getValue "CVMFS_USE_GEOAPI").map mp.opts.isOn).getD false
    let ev := [Event.downloadMgrInit, Event.resolveProxy proxies] ++
      (if geo then [Event.probeGeo] else [])
    let rx := MountPoint.SetupExternalDownloadMgr env mp
    (rx.1, rx.2.1, ev ++ rx.2.2)

/-- `MountPoint::CreateFetchers`. -/
def MountPoint.CreateFetchers (mp : MountPoint) : MountPoint × List Event :=
  ({ mp with has_fetcher := true, has_external_fetcher := true },
   [.fetcherCreate false, .fetcherCreate true])

/-- `MountPoint::SetupOwnerMaps`. -/
def MountPoint.SetupOwnerMaps (env : Env) (mp : MountPoint) :
    Bool × MountPoint :=
  match mp.opts.getValue "CVMFS_UID_MAP" with
  | some v =>
    if ¬ env.uidMapReadOk then
      (false, { mp with
        boot_error := "failed to parse uid map " ++ v
        boot_status := .kFailOptions })
    else
      match mp.opts.getValue "CVMFS_GID_MAP" with
      | some w =>
        if ¬ env.gidMapReadOk then
          (false, { mp with
            boot_error := "failed to parse gid map " ++ w
            boot_status := .kFailOptions })
        else (true, mp)
      | none => (true, mp)
  | none =>
    match mp.opts.getValue "CVMFS_GID_MAP" with
    | some w =>
      if ¬ env.gidMapReadOk then
        (false, { mp with
          boot_error := "failed to parse gid map " ++ w
          boot_status := .kFailOptions })
      else (true, mp)
    | none => (true, mp)

/-- `MountPoint::FetchHistory`: fetches the signed manifest, extracts
the history hash (fatal if null), downloads the tag database through
the fetcher and hands back the sqlite-vfs path `"@<fd>"`. -/
def MountPoint.FetchHistory (env : Env) (mp : MountPoint) :
    Option String × MountPoint × List Event :=
  if ¬ env.manifestFetchOk then
    (none, { mp with
      boot_error := "Failed to fetch manifest"
      boot_status := .kFailHistory }, [.manifestFetch])
  else if env.manifestHistoryHash = .null then
    (none, { mp with
      boot_error := "No history"
      boot_status := .kFailHistory }, [.manifestFetch])
  else if env.fetchFd < 0 then
    (none, { mp with
      boot_error := "failed to download history: " ++ toString (-env.fetchFd)
      boot_status := .kFailHistory }, [.manifestFetch, .historyFetch])
  else
    (some ("@" ++ toString env.fetchFd), mp, [.manifestFetch, .historyFetch])

/-- `MountPoint::DetermineRootHash`: explicit configured hash, the
null "track head" sentinel, or a hash resolved from the history tag
database by name or by date. -/
def MountPoint.DetermineRootHash (env : Env) (mp : MountPoint) :
    Option RootHash × MountPoint × List Event :=
  match mp.opts.getValue "CVMFS_ROOT_HASH" with
  | some v => (some (env.mkFromHexPtr v), mp, [])
  | none =>
    if ¬ mp.opts.isDefined "CVMFS_REPOSITORY_TAG" ∧
        ¬ mp.opts.isDefined "CVMFS_REPOSITORY_DATE" then
      (some .null, mp, [])
    else
      let rh := MountPoint.FetchHistory env mp
      match rh.1 with
      | none => (none, rh.2.1, rh.2.2)
      | some history_path =>
        let ev := rh.2.2 ++ [Event.historyOpen history_path]
        match env.sqliteHistoryOpen history_path with
        | none =>
          (none, { rh.2.1 with
            boot_error := "failed to open history database"
            boot_status := .kFailHistory }, ev)
        | some tag_db =>
          match rh.2.1.opts.getValue "CVMFS_REPOSITORY_TAG" with
          | none =>
            let repository_date :=
              (rh.2.1.opts.getValue "CVMFS_REPOSITORY_DATE").getD ""
            let repository_utctime := env.isoTimestamp2UtcTime repository_date
            if repository_utctime = 0 then
              (none, { rh.2.1 with
                boot_error := "invalid timestamp in CVMFS_REPOSITORY_DATE: " ++
                  repository_date ++ ". Use YYYY-MM-DDTHH:MM:SSZ"
                boot_status := .kFailHistory }, ev)
            else
              match tag_db.getByDate repository_utctime with
              | none =>
                (none, { rh.2.1 with
                  boot_error := "no repository state as early as utc timestamp "
                  boot_status := .kFailHistory }, ev)
              | some tag =>
                (some tag.root_hash,
                 { rh.2.1 with repository_tag := tag.name }, ev)
          | some t =>
            let mp1 := { rh.2.1 with repository_tag := t }
            match tag_db.getByName t with
            | none =>
              (none, { mp1 with
                boot_error := "no such tag: " ++ t
                boot_status := .kFailHistory }, ev)
            | some tag => (some tag.root_hash, mp1, ev)

/-- `MountPoint::SetupInodeAnnot` (`SetupInodeAnnotation` in the
source): infallible. -/
def MountPoint.SetupInodeAnnot (mp : MountPoint) : MountPoint :=
  { mp with has_inode_annot := true }

/-- `MountPoint::CreateCatalogManager`: the catalog client object is
constructed first; the root hash decides `Init` (track head) vs.
`InitFixed`; a fixed root hash or a disabled auto-update flags the
mount as fixed. -/
def MountPoint.CreateCatalogManager (env : Env) (mp : MountPoint) :
    Bool × MountPoint × List Event :=
  let mp := MountPoint.SetupInodeAnnot { mp with has_catalog_mgr := true }
  let rom := MountPoint.SetupOwnerMaps env mp
  if ¬ rom.1 then
    (false, rom.2, [.catalogMgrCreate])
  else
    let rr := MountPoint.DetermineRootHash env rom.2
    match rr.1 with
    | none => (false, rr.2.1, Event.catalogMgrCreate :: rr.2.2)
    | some root_hash =>
      let init : Bool × MountPoint × List Event :=
        if root_hash = .null then
          (env.catalogInitOk, rr.2.1, [.catalogInit])
        else
          (env.catalogInitFixedOk root_hash,
           { rr.2.1 with fixed_catalog := true }, [.catalogInitFixed])
      let ev := Event.catalogMgrCreate :: rr.2.2 ++ init.2.2
      if ¬ init.1 then
        (false, { init.2.1 with
          boot_error := "Failed to initialize root file catalog"
          boot_status := .kFailCatalog }, ev)
      else
        let mp2 := init.2.1
        let mp3 :=
          if ((mp2.opts.getValue "CVMFS_AUTO_UPDATE").map
                (fun v => ! mp2.opts.isOn v)).getD false then
            { mp2 with fixed_catalog := true }
          else mp2
        (true, mp3, ev)

/-- `MountPoint::CreateTracer`: the tracer object always exists; an
activation request outside the fuse module is a configuration error. -/
def MountPoint.CreateTracer (mp : MountPoint) :
    Bool × MountPoint × List Event :=
  let mp := { mp with has_tracer := true }
  match mp.opts.getValue "CVMFS_TRACEFILE" with
  | some f =>
    if mp.file_system.type ≠ .kFsFuse then
      (false, { mp with
        boot_error := "tracer is only supported in the fuse module"
        boot_status := .kFailOptions }, [])
    else
      (true, { mp with tracer_active := true }, [.tracerActivate f])
  | none => (true, mp, [])

/-- `MountPoint::ReEvaluateAuthz`. -/
def MountPoint.ReEvaluateAuthz (env : Env) (mp : MountPoint) : MountPoint :=
  { mp with has_membership_req := env.getVOMSAuthz }

/-- `MountPoint::CreateTables`: infallible; the in-memory lookup caches
(sizing detail external to the claims) are recorded as constructed. -/
def MountPoint.CreateTables (mp : MountPoint) : MountPoint :=
  { mp with has_tables := true }

/-- `MountPoint::SetMaxTtlMn`: stores minutes as seconds in the
`unsigned` field (C++ 32-bit wrap-around made explicit). -/
def MountPoint.SetMaxTtlMn (mp : MountPoint) (value_minutes : Nat) :
    MountPoint :=
  { mp with max_ttl_sec := (value_minutes * 60) % 2 ^ 32 }

/-- `MountPoint::GetMaxTtlMn`. -/
def MountPoint.GetMaxTtlMn (mp : MountPoint) : Nat :=
  mp.max_ttl_sec / 60

/-- `MountPoint::GetEffectiveTtlSec`: the catalog's TTL, capped by the
max-TTL tunable when that is non-zero. -/
def MountPoint.GetEffectiveTtlSec (env : Env) (mp : MountPoint) : Nat :=
  let max_ttl := mp.max_ttl_sec
  let catalog_ttl_sec := env.catalogTtlSec
  if max_ttl ≠ 0 then min max_ttl catalog_ttl_sec else catalog_ttl_sec

/-- `MountPoint::SetupBehavior`: runtime tunables (max TTL, kernel
cache timeout floor-clamped to zero, xattr visibility). -/
def MountPoint.SetupBehavior (env : Env) (mp : MountPoint) : MountPoint :=
  let mp := match mp.opts.getValue "CVMFS_MAX_TTL" with
    | some v => mp.SetMaxTtlMn (env.str2Uint64 v)
    | none => mp
  let mp := match mp.opts.getValue "CVMFS_KCACHE_TIMEOUT" with
    | some v => { mp with kcache_timeout_sec := max 0 (env.str2Int64 v) }
    | none => mp
  if ((mp.opts.getValue "CVMFS_HIDE_MAGIC_XATTRS").map mp.opts.isOn).getD false
  then { mp with hide_magic_xattrs := true }
  else mp

/-- `MountPoint::Create`: the ordered construction sequence of the
per-repository context.  Always returns the context object; a failing
stage stops the sequence with that stage's outcome recorded. -/
def MountPoint.Create (env : Env) (fqrn : String) (file_system : FileSystem)
    (options_mgr : Option OptionsMgr) : MountPoint × List Event :=
  let mp0 := MountPoint.init env fqrn file_system options_mgr
  let mp0 := { mp0 with
    has_statistics := true, has_authz := true, has_backoff_throttle := true }
  let r1 := MountPoint.CreateSignatureManager env mp0
  if ¬ r1.1 then (r1.2.1, r1.2.2) else
  let r2 := MountPoint.CheckBlacklists env r1.2.1
  if ¬ r2.1 then (r2.2.1, r1.2.2 ++ r2.2.2) else
  let r3 := MountPoint.CreateDownloadManagers env r2.2.1
  if ¬ r3.1 then (r3.2.1, r1.2.2 ++ r2.2.2 ++ r3.2.2) else
  let r4 := MountPoint.CreateFetchers r3.2.1
  let r5 := MountPoint.CreateCatalogManager env r4.1
  if ¬ r5.1 then (r5.2.1, r1.2.2 ++ r2.2.2 ++ r3.2.2 ++ r4.2 ++ r5.2.2) else
  let r6 := MountPoint.CreateTracer r5.2.1
  if ¬ r6.1 then (r6.2.1, r1.2.2 ++ r2.2.2 ++ r3.2.2 ++ r4.2 ++ r5.2.2 ++ r6.2.2) else
  let mp := MountPoint.ReEvaluateAuthz env r6.2.1
  let mp := MountPoint.CreateTables mp
  let mp := MountPoint.SetupBehavior env mp
  ({ mp with boot_status := .kFailOk },
   r1.2.2 ++ r2.2.2 ++ r3.2.2 ++ r4.2 ++ r5.2.2 ++ r6.2.2)

/-- Builds a concrete `OptionsMgr` from an association list; values are
"on" exactly when they equal "yes" (a concrete choice for the external
`IsOn` parser, used only in concrete test configurations). -/
def optsOf (kvs : List (String × String)) : OptionsMgr :=
  { getValue := fun k => (kvs.find? (fun p => p.1 = k)).map Prod.snd
    isOn := fun v => v = "yes"
    hasConfigRepository := fun _ => none }

/-- A concrete environment in which every external collaborator
succeeds; individual test configurations override single fields. -/
def envA : Env :=
  { makeCanonicalPath := fun s => s
    str2Int64 := fun _ => 0
    str2Uint64 := fun _ => 0
    memsize := 2 ^ 33
    defaultQuotaLimit := 4 * 1024 * 1024 * 1024
    defaultMaxTtlSec := 0
    defaultKcacheTtlSec := 60
    tryLockFile := fun _ => 3
    lockFile := fun _ => 4
    lockErrno := "11"
    crashGuardErrno := "13"
    chdirOk := fun _ => true
    fileStatExists := fun _ => false
    crashGuardOpenOk := true
    mkdirDeepOk := fun _ => true
    posixCacheCreateOk := fun _ => true
    posixCacheCreateErrno := "2"
    pluginValid := fun _ => true
    pluginErrMsg := "plugin handshake failed"
    pluginFd := 7
    externalCreateOk := true
    tieredCreateOk := true
    quotaCreateSharedOk := true
    quotaCreateOk := true
    quotaSize := 0
    quotaCapacity := 100
    quotaCleanupOk := fun _ => true
    nfsSupportCompiled := true
    nfsMapsInitOk := true
    findFilesJoined := fun _ => ""
    loadPublicRsaKeysOk := true
    loadTrustedCaCrlOk := true
    fileExists := fun _ => false
    loadBlacklistOk := true
    resolveProxyDescription := fun s => if s = "" then "DIRECT" else s
    uidMapReadOk := true
    gidMapReadOk := true
    manifestFetchOk := true
    manifestHistoryHash := .hash "beef"
    fetchFd := 3
    sqliteHistoryOpen := fun _ => none
    mkFromHexPtr := fun s => .hash s
    isoTimestamp2UtcTime := fun _ => 0
    catalogInitOk := true
    catalogInitFixedOk := fun _ => true
    catalogTtlSec := 240
    getVOMSAuthz := false }

/-- A concrete `FileSystemInfo` for test configurations. -/
def infoOf (opts : OptionsMgr) (t : FsType) (wait : Bool) : FileSystemInfo :=
  { name := "testrepo"
    exe_path := "/usr/bin/cvmfs2"
    type := t
    options_mgr := opts
    wait_workspace := wait
    foreground := false }

def fsA : FileSystem :=
  FileSystem.init (infoOf (optsOf []) .kFsFuse false)

def mpA : MountPoint :=
  MountPoint.init envA "test.cern.ch" fsA none

/-- Stage 1 of `FileSystem::Create`: NFS mode determination applied to
the freshly constructed object (the logging / statistics / sqlite
members that precede it are infallible and external). -/
def FileSystem.stageNfs (info : FileSystemInfo) : Bool × FileSystem :=
  FileSystem.DetermineNfsMode (FileSystem.init info)

/-- Stage 2 of `FileSystem::Create`: workspace setup on the state left
by stage 1. -/
def FileSystem.stageWorkspace (env : Env) (info : FileSystemInfo) :
    Bool × FileSystem × List Event :=
  FileSystem.SetupWorkspace env (FileSystem.stageNfs info).2

/-- Stage 3 of `FileSystem::Create`: cache-manager triage on the state
left by stage 2. -/
def FileSystem.stageCache (env : Env) (info : FileSystemInfo) (fuel : Nat) :
    Bool × FileSystem × List Event :=
  FileSystem.TriageCacheMgr env fuel (FileSystem.stageWorkspace env info).2.1

/-- Stage 4 of `FileSystem::Create`: the infallible uuid setup on the
state left by stage 3. -/
def FileSystem.stageUuid (env : Env) (info : FileSystemInfo) (fuel : Nat) :
    FileSystem × List Event :=
  FileSystem.SetupUuid (FileSystem.stageCache env info fuel).2.1

/-- Stage 5 of `FileSystem::Create`: NFS maps setup on the state left
by stage 4. -/
def FileSystem.stageNfsMaps (env : Env) (info : FileSystemInfo)
    (fuel : Nat) : Bool × FileSystem × List Event :=
  FileSystem.SetupNfsMaps env (FileSystem.stageUuid env info fuel).1

/-- The `MountPoint` object as first constructed by `MountPoint::Create`
(the constructor plus the infallible statistics / authz / backoff
members created before the first fallible stage). -/
def MountPoint.initStats (env : Env) (fqrn : String)
    (file_system : FileSystem) (options_mgr : Option OptionsMgr) :
    MountPoint :=
  { MountPoint.init env fqrn file_system options_mgr with
    has_statistics := true, has_authz := true, has_backoff_throttle := true }

/-- Stage 1 of `MountPoint::Create`: the signature manager. -/
def MountPoint.stageSignature (env : Env) (fqrn : String)
    (file_system : FileSystem) (options_mgr : Option OptionsMgr) :
    Bool × MountPoint × List Event :=
  MountPoint.CreateSignatureManager env
    (MountPoint.initStats env fqrn file_system options_mgr)

/-- Stage 2 of `MountPoint::Create`: the blacklist checks on the state
left by stage 1. -/
def MountPoint.stageBlacklist (env : Env) (fqrn : String)
    (file_system : FileSystem) (options_mgr : Option OptionsMgr) :
    Bool × MountPoint × List Event :=
  MountPoint.CheckBlacklists env
    (MountPoint.stageSignature env fqrn file_system options_mgr).2.1

/-- Stage 3 of `MountPoint::Create`: the download managers on the state
left by stage 2. -/
def MountPoint.stageDownload (env : Env) (fqrn : String)
    (file_system : FileSystem) (options_mgr : Option OptionsMgr) :
    Bool × MountPoint × List Event :=
  MountPoint.CreateDownloadManagers env
    (MountPoint.stageBlacklist env fqrn file_system options_mgr).2.1

/-- Stage 4 of `MountPoint::Create`: the infallible fetcher creation on
the state left by stage 3. -/
def MountPoint.stageFetchers (env : Env) (fqrn : String)
    (file_system : FileSystem) (options_mgr : Option OptionsMgr) :
    MountPoint × List Event :=
  MountPoint.CreateFetchers
    (MountPoint.stageDownload env fqrn file_system options_mgr).2.1

/-- Stage 5 of `MountPoint::Create`: the catalog manager on the state
left by stage 4. -/
def MountPoint.stageCatalog (env : Env) (fqrn : String)
    (file_system : FileSystem) (options_mgr : Option OptionsMgr) :
    Bool × MountPoint × List Event :=
  MountPoint.CreateCatalogManager env
    (MountPoint.stageFetchers env fqrn file_system options_mgr).1

/-- Stage 6 of `MountPoint::Create`: the tracer on the state left by
stage 5. -/
def MountPoint.stageTracer (env : Env) (fqrn : String)
    (file_system : FileSystem) (options_mgr : Option OptionsMgr) :
    Bool × MountPoint × List Event :=
  MountPoint.CreateTracer
    (MountPoint.stageCatalog env fqrn file_system options_mgr).2.1

/-- C10 (counterexample): the claim asserts `GetMaxTtlMn` after
`SetMaxTtlMn(v)` returns `v` for every state and every `v`; the field is
a 32-bit `unsigned`, so for `v = 71582789` the stored `v * 60` wraps
around and the read-back is 0, not `v`. -/
theorem c10_counterexample :
    (mpA.SetMaxTtlMn 71582789).GetMaxTtlMn ≠ 71582789 := by
  decide

/-- C10 (amended): `GetEffectiveTtlSec` returns the catalog TTL when the
stored max-TTL is zero and the minimum of stored max-TTL and catalog TTL
otherwise; `SetMaxTtlMn` stores its argument times 60 (reduced modulo
`2^32`, the width of the `unsigned` field); `GetMaxTtlMn` returns the
stored seconds divided by 60; the round trip returns `v` whenever
`v * 60` does not overflow 32 bits. -/
theorem c10_ttl_tunables (env : Env) (mp : MountPoint) (v : Nat) :
    (mp.max_ttl_sec = 0 → mp.GetEffectiveTtlSec env = env.catalogTtlSec) ∧
    (mp.max_ttl_sec ≠ 0 →
      mp.GetEffectiveTtlSec env = min mp.max_ttl_sec env.catalogTtlSec) ∧
    (mp.SetMaxTtlMn v).max_ttl_sec = v * 60 % 2 ^ 32 ∧
    mp.GetMaxTtlMn = mp.max_ttl_sec / 60 ∧
    (v * 60 < 2 ^ 32 → (mp.SetMaxTtlMn v).GetMaxTtlMn = v) := by
  refine ⟨fun h => ?_, fun h => ?_, rfl, rfl, fun h => ?_⟩
  · simp [MountPoint.GetEffectiveTtlSec, h]
  · simp [MountPoint.GetEffectiveTtlSec, h]
  · have h60 : (0 : Nat) < 60 := by norm_num
    simp only [MountPoint.GetMaxTtlMn, MountPoint.SetMaxTtlMn,
      Nat.mod_eq_of_lt h, Nat.mul_div_cancel v h60]

/-- C10 (witness): the amended theorem at a concrete state and `v = 5`. -/
theorem c10_witness :
    mpA.max_ttl_sec = 0 ∧ mpA.GetEffectiveTtlSec envA = envA.catalogTtlSec ∧
    (mpA.SetMaxTtlMn 5).GetMaxTtlMn = 5 := by
  refine ⟨by decide, ?_, ?_⟩
  · exact (c10_ttl_tunables envA mpA 5).1 (by decide)
  · exact (c10_ttl_tunables envA mpA 5).2.2.2.2 (by decide)

/-- C7: `LockWorkspace` outcomes.  (a) lock free: acquired immediately
and the call succeeds; (b) lock held elsewhere and the caller does not
wait: fails fast with the distinct `kFailLockWorkspace` status and the
blocking lock primitive is never invoked; (c) lock held elsewhere and
the caller waits: the blocking primitive is invoked and its success
acquires the lock; (d) a primitive error (either from the non-blocking
probe or from the blocking call) yields a `kFailCacheDir` failure. -/
theorem c7_lock_workspace (env : Env) (fs : FileSystem) :
    (env.tryLockFile (fs.workspace ++ "/lock." ++ fs.name) ≥ 0 →
      (FileSystem.LockWorkspace env fs).1 = true ∧
      (FileSystem.LockWorkspace env fs).2.1.fd_workspace_lock =
        env.tryLockFile (fs.workspace ++ "/lock." ++ fs.name) ∧
      (FileSystem.LockWorkspace env fs).2.1.boot_status = fs.boot_status ∧
      (FileSystem.LockWorkspace env fs).2.2 =
        [.tryLock (fs.workspace ++ "/lock." ++ fs.name)]) ∧
    (env.tryLockFile (fs.workspace ++ "/lock." ++ fs.name) = -2 →
      fs.wait_workspace = false →
      (FileSystem.LockWorkspace env fs).1 = false ∧
      (FileSystem.LockWorkspace env fs).2.1.boot_status = .kFailLockWorkspace ∧
      (FileSystem.LockWorkspace env fs).2.2 =
        [.tryLock (fs.workspace ++ "/lock." ++ fs.name)]) ∧
    (env.tryLockFile (fs.workspace ++ "/lock." ++ fs.name) = -2 →
      fs.wait_workspace = true →
      env.lockFile (fs.workspace ++ "/lock." ++ fs.name) ≥ 0 →
      (FileSystem.LockWorkspace env fs).1 = true ∧
      (FileSystem.LockWorkspace env fs).2.1.fd_workspace_lock =
        env.lockFile (fs.workspace ++ "/lock." ++ fs.name) ∧
      (FileSystem.LockWorkspace env fs).2.2 =
        [.tryLock (fs.workspace ++ "/lock." ++ fs.name),
         .blockingLock (fs.workspace ++ "/lock." ++ fs.name)]) ∧
    (env.tryLockFile (fs.workspace ++ "/lock." ++ fs.name) = -2 →
      fs.wait_workspace = true →
      env.lockFile (fs.workspace ++ "/lock." ++ fs.name) < 0 →
      (FileSystem.LockWorkspace env fs).1 = false ∧
      (FileSystem.LockWorkspace env fs).2.1.boot_status = .kFailCacheDir) ∧
    (env.tryLockFile (fs.workspace ++ "/lock." ++ fs.name) = -1 →
      (FileSystem.LockWorkspace env fs).1 = false ∧
      (FileSystem.LockWorkspace env fs).2.1.boot_status = .kFailCacheDir) := by
  refine ⟨fun h => ?_, fun h hw => ?_, fun h hw hl => ?_, fun h hw hl => ?_,
    fun h => ?_⟩
  · simp [FileSystem.LockWorkspace, h]
  · rw [FileSystem.LockWorkspace] at *
    simp only [h, hw] at *
    norm_num
  · rw [FileSystem.LockWorkspace] at *
    simp only [h, hw] at *
    norm_num
    simp [not_lt.mpr hl]
  · rw [FileSystem.LockWorkspace] at *
    simp only [h, hw] at *
    norm_num
    simp [hl]
  · rw [FileSystem.LockWorkspace] at *
    simp only [h] at *
    norm_num

/-- C7 (witness): a held lock with a non-waiting caller fails fast with
the lock-contention status and never calls the blocking primitive. -/
theorem c7_witness :
    (FileSystem.LockWorkspace
      { envA with tryLockFile := fun _ => -2 } fsA).1 = false ∧
    (FileSystem.LockWorkspace
      { envA with tryLockFile := fun _ => -2 } fsA).2.1.boot_status =
      .kFailLockWorkspace ∧
    (FileSystem.LockWorkspace
      { envA with tryLockFile := fun _ => -2 } fsA).2.2 =
      [.tryLock (fsA.workspace ++ "/lock." ++ fsA.name)] :=
  (c7_lock_workspace { envA with tryLockFile := fun _ => -2 } fsA).2.1
    (by decide) (by decide)

/-- `CheckPosixCacheSettings` passes exactly when none of the four
mutual-exclusion violations is present. -/
theorem checkPosixCacheSettings_true_iff (fs : FileSystem)
    (s : PosixCacheSettings) :
    (FileSystem.CheckPosixCacheSettings fs s).1 = true ↔
      ¬(s.is_alien ∧ s.is_shared) ∧ ¬(s.is_alien ∧ s.is_managed) ∧
      ¬(fs.type = .kFsLibrary ∧ (s.is_shared ∨ s.is_managed)) ∧
      ¬(s.cache_base_defined ∧ s.cache_dir_defined) := by
  unfold FileSystem.CheckPosixCacheSettings
  split_ifs with h1 h2 h3 h4 <;> simp_all

/-- C4: an alien posix cache that is also shared or quota-managed fails
with the Options code before any cache manager is constructed (the
event log is empty); conversely any successfully constructed posix
cache manager satisfies the mutual-exclusion invariants, including the
base-directory/explicit-directory exclusion and the library-mode
restriction. -/
theorem c4_posix_cache_invariants (env : Env) (fs : FileSystem)
    (inst : String) :
    ((FileSystem.DeterminePosixCacheSettings env fs inst).is_alien ∧
      ((FileSystem.DeterminePosixCacheSettings env fs inst).is_shared ∨
       (FileSystem.DeterminePosixCacheSettings env fs inst).is_managed) →
      (FileSystem.SetupPosixCacheMgr env fs inst).1 = none ∧
      (FileSystem.SetupPosixCacheMgr env fs inst).2.1.boot_status =
        .kFailOptions ∧
      (FileSystem.SetupPosixCacheMgr env fs inst).2.2 = []) ∧
    (∀ cm, (FileSystem.SetupPosixCacheMgr env fs inst).1 = some cm →
      ((FileSystem.DeterminePosixCacheSettings env fs inst).is_alien →
        (FileSystem.DeterminePosixCacheSettings env fs inst).is_shared = false) ∧
      ((FileSystem.DeterminePosixCacheSettings env fs inst).is_alien →
        (FileSystem.DeterminePosixCacheSettings env fs inst).is_managed = false) ∧
      ¬((FileSystem.DeterminePosixCacheSettings env fs inst).cache_base_defined ∧
        (FileSystem.DeterminePosixCacheSettings env fs inst).cache_dir_defined) ∧
      (fs.type = .kFsLibrary →
        (FileSystem.DeterminePosixCacheSettings env fs inst).is_shared = false ∧
        (FileSystem.DeterminePosixCacheSettings env fs inst).is_managed = false)) := by
  constructor
  · intro h
    have hfail : (FileSystem.CheckPosixCacheSettings fs
        (FileSystem.DeterminePosixCacheSettings env fs inst)).1 = false ∧
        (FileSystem.CheckPosixCacheSettings fs
          (FileSystem.DeterminePosixCacheSettings env fs inst)).2.boot_status =
          .kFailOptions := by
      unfold FileSystem.CheckPosixCacheSettings
      rcases h with ⟨ha, hsm⟩
      rcases hsm with hsh | hm
      · simp [ha, hsh]
      · by_cases hsh : (FileSystem.DeterminePosixCacheSettings env fs inst).is_shared
        · simp [ha, hsh]
        · simp [ha, hsh, hm]
    unfold FileSystem.SetupPosixCacheMgr
    simp [hfail.1, hfail.2]
  · intro cm hcm
    have hok : (FileSystem.CheckPosixCacheSettings fs
        (FileSystem.DeterminePosixCacheSettings env fs inst)).1 = true := by
      by_contra hno
      rw [Bool.not_eq_true] at hno
      unfold FileSystem.SetupPosixCacheMgr at hcm
      simp [hno] at hcm
    rw [checkPosixCacheSettings_true_iff] at hok
    obtain ⟨h1, h2, h3, h4⟩ := hok
    refine ⟨fun ha => ?_, fun ha => ?_, h4, fun ht => ⟨?_, ?_⟩⟩
    · by_contra hsh
      exact h1 ⟨ha, by simpa using hsh⟩
    · by_contra hm
      exact h2 ⟨ha, by simpa using hm⟩
    · by_contra hsh
      exact h3 ⟨ht, Or.inl (by simpa using hsh)⟩
    · by_contra hm
      exact h3 ⟨ht, Or.inr (by simpa using hm)⟩

/-- C4 (witness): a concrete alien + shared configuration is rejected
with the Options code, constructing nothing. -/
theorem c4_witness :
    (FileSystem.SetupPosixCacheMgr envA
      (FileSystem.init (infoOf
        (optsOf [("CVMFS_ALIEN_CACHE", "/alien"), ("CVMFS_SHARED_CACHE", "yes")])
        .kFsFuse false)) "default").1 = none ∧
    (FileSystem.SetupPosixCacheMgr envA
      (FileSystem.init (infoOf
        (optsOf [("CVMFS_ALIEN_CACHE", "/alien"), ("CVMFS_SHARED_CACHE", "yes")])
        .kFsFuse false)) "default").2.1.boot_status = .kFailOptions ∧
    (FileSystem.SetupPosixCacheMgr envA
      (FileSystem.init (infoOf
        (optsOf [("CVMFS_ALIEN_CACHE", "/alien"), ("CVMFS_SHARED_CACHE", "yes")])
        .kFsFuse false)) "default").2.2 = [] :=
  (c4_posix_cache_invariants envA
    (FileSystem.init (infoOf
      (optsOf [("CVMFS_ALIEN_CACHE", "/alien"), ("CVMFS_SHARED_CACHE", "yes")])
      .kFsFuse false)) "default").1 (by decide)

/-- C6: quota attachment constructs the quota manager with cleanup
threshold `quota_limit / 2` (every construction and cleanup request in
the log carries exactly that threshold); when the cache size exceeds
the capacity it runs the synchronous cleanup exactly once before
returning success; when size is within capacity no cleanup is ever
invoked; a failing cleanup fails the bootstrap with the Quota code. -/
theorem c6_quota_attachment (env : Env) (fs : FileSystem)
    (settings : PosixCacheSettings) :
    (∀ sh l t, Event.quotaCreate sh l t ∈
        (FileSystem.SetupPosixQuotaMgr env fs settings).2.2 →
      l = settings.quota_limit ∧ t = settings.quota_limit / 2) ∧
    (∀ t, Event.quotaCleanup t ∈
        (FileSystem.SetupPosixQuotaMgr env fs settings).2.2 →
      t = settings.quota_limit / 2) ∧
    ((if settings.is_shared then env.quotaCreateSharedOk
        else env.quotaCreateOk) = true →
      env.quotaSize > env.quotaCapacity →
      env.quotaCleanupOk (settings.quota_limit / 2) = true →
      (FileSystem.SetupPosixQuotaMgr env fs settings).1 = true ∧
      (FileSystem.SetupPosixQuotaMgr env fs settings).2.2.count
        (Event.quotaCleanup (settings.quota_limit / 2)) = 1) ∧
    ((if settings.is_shared then env.quotaCreateSharedOk
        else env.quotaCreateOk) = true →
      env.quotaSize ≤ env.quotaCapacity →
      (FileSystem.SetupPosixQuotaMgr env fs settings).1 = true ∧
      ∀ t, Event.quotaCleanup t ∉
        (FileSystem.SetupPosixQuotaMgr env fs settings).2.2) ∧
    ((if settings.is_shared then env.quotaCreateSharedOk
        else env.quotaCreateOk) = true →
      env.quotaSize > env.quotaCapacity →
      env.quotaCleanupOk (settings.quota_limit / 2) = false →
      (FileSystem.SetupPosixQuotaMgr env fs settings).1 = false ∧
      (FileSystem.SetupPosixQuotaMgr env fs settings).2.1.boot_status =
        .kFailQuota) := by
  by_cases hs : settings.is_shared = true <;>
  by_cases hq : (if settings.is_shared then env.quotaCreateSharedOk
    else env.quotaCreateOk) = true <;>
  by_cases hz : env.quotaSize > env.quotaCapacity <;>
  by_cases hcl : env.quotaCleanupOk (settings.quota_limit / 2) = true <;>
  · unfold FileSystem.SetupPosixQuotaMgr
    simp_all [List.count_cons, ← not_lt]

/-- C6 (witness): a 200-byte limit with an over-capacity cache (size
150 > capacity 100) succeeds after exactly one cleanup to threshold
100 = 200 / 2. -/
theorem c6_witness :
    (FileSystem.SetupPosixQuotaMgr { envA with quotaSize := 150 } fsA
      { quota_limit := 200 }).1 = true ∧
    (FileSystem.SetupPosixQuotaMgr { envA with quotaSize := 150 } fsA
      { quota_limit := 200 }).2.2.count
      (Event.quotaCleanup ((200 : Int) / 2)) = 1 :=
  (c6_quota_attachment { envA with quotaSize := 150 } fsA
    { quota_limit := 200 }).2.2.1 (by decide) (by decide) (by decide)

/-- C5 (counterexample): the claim says every invalid instance name
fails "recording a failure code and message on the context".  A name of
25 valid characters fails `CheckInstanceName`'s length test, which
returns `false` without setting `boot_error_` / `boot_status_`: the
returned context still carries the default status and an empty
message. -/
theorem c5_counterexample :
    ("aaaaaaaaaaaaaaaaaaaaaaaaa" : String).length > 24 ∧
    (FileSystem.TriageCacheMgr envA 5 (FileSystem.init (infoOf
      (optsOf [("CVMFS_CACHE_PRIMARY", "aaaaaaaaaaaaaaaaaaaaaaaaa")])
      .kFsFuse false))).1 = false ∧
    (FileSystem.TriageCacheMgr envA 5 (FileSystem.init (infoOf
      (optsOf [("CVMFS_CACHE_PRIMARY", "aaaaaaaaaaaaaaaaaaaaaaaaa")])
      .kFsFuse false))).2.1.boot_status = .kFailUnknown ∧
    (FileSystem.TriageCacheMgr envA 5 (FileSystem.init (infoOf
      (optsOf [("CVMFS_CACHE_PRIMARY", "aaaaaaaaaaaaaaaaaaaaaaaaa")])
      .kFsFuse false))).2.1.boot_error = "" := by
  decide

/-- A name within the length cap containing an invalid character makes
`CheckInstanceName` fail recording the CacheDir code and a message. -/
theorem checkInstanceName_char_invalid (inst : String)
    (hlen : inst.length ≤ 24)
    (hbad : inst.toList.all validInstanceChar = false) :
    ∀ fs : FileSystem, FileSystem.CheckInstanceName fs inst =
      (false, { fs with
        boot_error := "invalid instance name (" ++ inst ++ "), " ++
                      "only characters a-z, A-Z, 0-9, _ are allowed"
        boot_status := .kFailCacheDir }) := by
  intro fs
  unfold FileSystem.CheckInstanceName
  rw [if_neg (by omega)]
  rw [if_pos (by simpa using hbad)]

/-- An over-long name makes `CheckInstanceName` fail leaving the
context untouched. -/
theorem checkInstanceName_too_long (inst : String)
    (hlen : inst.length > 24) :
    ∀ fs : FileSystem, FileSystem.CheckInstanceName fs inst = (false, fs) := by
  intro fs
  unfold FileSystem.CheckInstanceName
  rw [if_pos hlen]

/-- C5 (amended): an invalid primary cache-instance name makes
resolution fail prior to any I/O (empty event log).  A name with a
character outside `[A-Za-z0-9_]` (within the length cap) records the
CacheDir failure code and a message; a name longer than 24 characters
fails with the context's failure fields left untouched (no code or
message recorded). -/
theorem c5_instance_name_validation (env : Env) (fuel : Nat)
    (fs : FileSystem) (inst : String)
    (hp : fs.opts.getValue "CVMFS_CACHE_PRIMARY" = some inst)
    (hne : inst ≠ "") :
    (inst.length ≤ 24 → inst.toList.all validInstanceChar = false →
      (FileSystem.TriageCacheMgr env fuel fs).1 = false ∧
      (FileSystem.TriageCacheMgr env fuel fs).2.1.boot_status = .kFailCacheDir ∧
      (FileSystem.TriageCacheMgr env fuel fs).2.1.boot_error =
        "invalid instance name (" ++ inst ++ "), " ++
        "only characters a-z, A-Z, 0-9, _ are allowed" ∧
      (FileSystem.TriageCacheMgr env fuel fs).2.2 = []) ∧
    (inst.length > 24 →
      (FileSystem.TriageCacheMgr env fuel fs).1 = false ∧
      (FileSystem.TriageCacheMgr env fuel fs).2.1.boot_status = fs.boot_status ∧
      (FileSystem.TriageCacheMgr env fuel fs).2.1.boot_error = fs.boot_error ∧
      (FileSystem.TriageCacheMgr env fuel fs).2.2 = []) := by
  constructor
  · intro hlen hbad
    unfold FileSystem.TriageCacheMgr
    simp [hp, hne, checkInstanceName_char_invalid inst hlen hbad]
  · intro hlen
    unfold FileSystem.TriageCacheMgr
    simp [hp, hne, checkInstanceName_too_long inst hlen]

/-- C5 (witness): a name with a hyphen is rejected before any I/O with
the CacheDir code and a recorded message. -/
theorem c5_witness :
    (FileSystem.TriageCacheMgr envA 5 (FileSystem.init (infoOf
      (optsOf [("CVMFS_CACHE_PRIMARY", "bad-name")]) .kFsFuse false))).1 =
      false ∧
    (FileSystem.TriageCacheMgr envA 5 (FileSystem.init (infoOf
      (optsOf [("CVMFS_CACHE_PRIMARY", "bad-name")]) .kFsFuse false))).2.1.boot_status =
      .kFailCacheDir ∧
    (FileSystem.TriageCacheMgr envA 5 (FileSystem.init (infoOf
      (optsOf [("CVMFS_CACHE_PRIMARY", "bad-name")]) .kFsFuse false))).2.1.boot_error =
      "invalid instance name (" ++ "bad-name" ++ "), " ++
      "only characters a-z, A-Z, 0-9, _ are allowed" ∧
    (FileSystem.TriageCacheMgr envA 5 (FileSystem.init (infoOf
      (optsOf [("CVMFS_CACHE_PRIMARY", "bad-name")]) .kFsFuse false))).2.2 = [] :=
  (c5_instance_name_validation envA 5 (FileSystem.init (infoOf
      (optsOf [("CVMFS_CACHE_PRIMARY", "bad-name")]) .kFsFuse false))
    "bad-name" (by decide) (by decide)).1 (by decide) (by decide)

/-- `MkCacheParm` reads only the options; updating the cycle-detection
set does not change it. -/
theorem mkCacheParm_constructed (fs : FileSystem) (l : List String)
    (g i : String) :
    FileSystem.MkCacheParm { fs with constructed_instances := l } g i =
      fs.MkCacheParm g i := rfl

/-- One unfolding step of `SetupCacheMgr` when the instance is not yet
in the cycle-detection set: insert it and dispatch on the type tag. -/
theorem setupCacheMgr_succ (env : Env) (fuel : Nat) (fs : FileSystem)
    (inst : String)
    (hnc : fs.constructed_instances.contains inst = false) :
    FileSystem.SetupCacheMgr env (fuel + 1) fs inst =
      (if (if inst = kDefaultCacheMgrInstance then "posix"
          else (fs.opts.getValue (fs.MkCacheParm "CVMFS_CACHE_TYPE" inst)).getD "")
          = "posix" then
        FileSystem.SetupPosixCacheMgr env
          { fs with constructed_instances := inst :: fs.constructed_instances } inst
      else if (if inst = kDefaultCacheMgrInstance then "posix"
          else (fs.opts.getValue (fs.MkCacheParm "CVMFS_CACHE_TYPE" inst)).getD "")
          = "ram" then
        FileSystem.SetupRamCacheMgr env
          { fs with constructed_instances := inst :: fs.constructed_instances } inst
      else if (if inst = kDefaultCacheMgrInstance then "posix"
          else (fs.opts.getValue (fs.MkCacheParm "CVMFS_CACHE_TYPE" inst)).getD "")
          = "tiered" then
        FileSystem.SetupTieredCacheMgr env
          { fs with constructed_instances := inst :: fs.constructed_instances } inst fuel
      else if (if inst = kDefaultCacheMgrInstance then "posix"
          else (fs.opts.getValue (fs.MkCacheParm "CVMFS_CACHE_TYPE" inst)).getD "")
          = "external" then
        FileSystem.SetupExternalCacheMgr env
          { fs with constructed_instances := inst :: fs.constructed_instances } inst
      else
        (none, { fs with
          constructed_instances := inst :: fs.constructed_instances
          boot_error := "invalid cache manager type for '" ++ inst ++ "':" ++
            (if inst = kDefaultCacheMgrInstance then "posix"
             else (fs.opts.getValue (fs.MkCacheParm "CVMFS_CACHE_TYPE" inst)).getD "")
          boot_status := .kFailCacheDir }, [])) := by
  rw [FileSystem.SetupCacheMgr]
  rw [if_neg (by simpa using hnc)]
  rfl

/-- C9 (counterexample): the claim says the default instance types as
Posix "unless overridden by a configured type".  With
`CVMFS_CACHE_TYPE=ram` configured, the source still hard-codes the
default instance to the posix variant: the configured type is ignored,
and a posix manager is constructed. -/
theorem c9_counterexample :
    (FileSystem.init (infoOf (optsOf [("CVMFS_CACHE_TYPE", "ram")])
      .kFsLibrary false)).opts.getValue "CVMFS_CACHE_TYPE" = some "ram" ∧
    (FileSystem.SetupCacheMgr envA 5 (FileSystem.init (infoOf
      (optsOf [("CVMFS_CACHE_TYPE", "ram")]) .kFsLibrary false))
      "default").1 = some (.posix "/var/lib/cvmfs/testrepo" false false) := by
  decide

/-- C9 (amended): `SetupCacheMgr` selects the variant by the
configuration-driven type tag for every non-default instance, among
posix / ram / tiered / external, and an unrecognized tag is fatal with
the CacheDir code and a recorded message; the default instance is
always typed Posix (a configured type tag is ignored). -/
theorem c9_cache_type_dispatch (env : Env) (fs : FileSystem) (inst : String)
    (fuel : Nat) (hnc : fs.constructed_instances.contains inst = false) :
    (inst = kDefaultCacheMgrInstance →
      FileSystem.SetupCacheMgr env (fuel + 1) fs inst =
        FileSystem.SetupPosixCacheMgr env
          { fs with constructed_instances := inst :: fs.constructed_instances }
          inst) ∧
    (inst ≠ kDefaultCacheMgrInstance →
      ∀ t, fs.opts.getValue (fs.MkCacheParm "CVMFS_CACHE_TYPE" inst) = some t →
        (t = "posix" →
          FileSystem.SetupCacheMgr env (fuel + 1) fs inst =
            FileSystem.SetupPosixCacheMgr env
              { fs with constructed_instances := inst :: fs.constructed_instances }
              inst) ∧
        (t = "ram" →
          FileSystem.SetupCacheMgr env (fuel + 1) fs inst =
            FileSystem.SetupRamCacheMgr env
              { fs with constructed_instances := inst :: fs.constructed_instances }
              inst) ∧
        (t = "tiered" →
          FileSystem.SetupCacheMgr env (fuel + 1) fs inst =
            FileSystem.SetupTieredCacheMgr env
              { fs with constructed_instances := inst :: fs.constructed_instances }
              inst fuel) ∧
        (t = "external" →
          FileSystem.SetupCacheMgr env (fuel + 1) fs inst =
            FileSystem.SetupExternalCacheMgr env
              { fs with constructed_instances := inst :: fs.constructed_instances }
              inst) ∧
        (t ≠ "posix" → t ≠ "ram" → t ≠ "tiered" → t ≠ "external" →
          (FileSystem.SetupCacheMgr env (fuel + 1) fs inst).1 = none ∧
          (FileSystem.SetupCacheMgr env (fuel + 1) fs inst).2.1.boot_status =
            .kFailCacheDir ∧
          (FileSystem.SetupCacheMgr env (fuel + 1) fs inst).2.1.boot_error =
            "invalid cache manager type for '" ++ inst ++ "':" ++ t)) := by
  rw [setupCacheMgr_succ env fuel fs inst hnc]
  constructor
  · intro hd
    simp [hd]
  · intro hd t ht
    refine ⟨fun h1 => ?_, fun h1 => ?_, fun h1 => ?_, fun h1 => ?_,
      fun h1 h2 h3 h4 => ?_⟩
    · subst h1; simp [hd, ht]
    · subst h1; simp [hd, ht]
    · subst h1; simp [hd, ht]
    · subst h1; simp [hd, ht]
    · simp [hd, ht, h1, h2, h3, h4]


/-- C9 (witness): a non-default instance with unrecognized type tag
"foo" is fatal with the CacheDir code and a recorded message. -/
theorem c9_witness :
    (FileSystem.SetupCacheMgr envA 5 (FileSystem.init (infoOf
      (optsOf [("CVMFS_CACHE_ext1_TYPE", "foo")]) .kFsFuse false))
      "ext1").1 = none ∧
    (FileSystem.SetupCacheMgr envA 5 (FileSystem.init (infoOf
      (optsOf [("CVMFS_CACHE_ext1_TYPE", "foo")]) .kFsFuse false))
      "ext1").2.1.boot_status = .kFailCacheDir ∧
    (FileSystem.SetupCacheMgr envA 5 (FileSystem.init (infoOf
      (optsOf [("CVMFS_CACHE_ext1_TYPE", "foo")]) .kFsFuse false))
      "ext1").2.1.boot_error =
      "invalid cache manager type for '" ++ "ext1" ++ "':" ++ "foo" :=
  ((c9_cache_type_dispatch envA (FileSystem.init (infoOf
      (optsOf [("CVMFS_CACHE_ext1_TYPE", "foo")]) .kFsFuse false))
    "ext1" 4 (by decide)).2 (by decide) "foo" (by decide)).2.2.2.2
    (by decide) (by decide) (by decide) (by decide)

theorem tag_tiered_ne_posix : ("tiered" : String) ≠ "posix" := by decide

theorem tag_tiered_ne_ram : ("tiered" : String) ≠ "ram" := by decide

theorem tag_ram_ne_posix : ("ram" : String) ≠ "posix" := by decide

/-- C3: cache-manager resolution keeps the set of instance names under
resolution and re-entering it is fatal with the circular-definition
error (first conjunct); a tiered instance whose upper child is itself
fails with exactly that error (second conjunct; `upper == lower == self`
is a special case since resolution stops at the upper child); a
non-cyclic two-level tier chain `a` over distinct ram instances `b`
(upper) and `c` (lower) resolves successfully and yields the composite
exclusively owning both children as configured (third conjunct). -/
theorem c3_cycle_detection_and_tiers (env : Env) :
    (∀ (fs : FileSystem) (inst : String) (fuel : Nat),
      fs.constructed_instances.contains inst = true →
      FileSystem.SetupCacheMgr env (fuel + 1) fs inst =
        (none, { fs with
          boot_error := "circular cache definition: " ++ inst
          boot_status := .kFailCacheDir }, [])) ∧
    (∀ (fs : FileSystem) (inst : String) (fuel : Nat),
      fs.constructed_instances.contains inst = false →
      inst ≠ kDefaultCacheMgrInstance →
      fs.opts.getValue (fs.MkCacheParm "CVMFS_CACHE_TYPE" inst) = some "tiered" →
      fs.opts.getValue (fs.MkCacheParm "CVMFS_CACHE_UPPER" inst) = some inst →
      (FileSystem.SetupCacheMgr env (fuel + 2) fs inst).1 = none ∧
      (FileSystem.SetupCacheMgr env (fuel + 2) fs inst).2.1.boot_status =
        .kFailCacheDir ∧
      (FileSystem.SetupCacheMgr env (fuel + 2) fs inst).2.1.boot_error =
        "circular cache definition: " ++ inst ∧
      (FileSystem.SetupCacheMgr env (fuel + 2) fs inst).2.2 = []) ∧
    (∀ (fs : FileSystem) (a b c : String) (fuel : Nat),
      fs.constructed_instances = [] →
      a ≠ b → a ≠ c → b ≠ c →
      a ≠ kDefaultCacheMgrInstance → b ≠ kDefaultCacheMgrInstance →
      c ≠ kDefaultCacheMgrInstance →
      fs.opts.getValue (fs.MkCacheParm "CVMFS_CACHE_TYPE" a) = some "tiered" →
      fs.opts.getValue (fs.MkCacheParm "CVMFS_CACHE_UPPER" a) = some b →
      fs.opts.getValue (fs.MkCacheParm "CVMFS_CACHE_LOWER" a) = some c →
      fs.opts.getValue (fs.MkCacheParm "CVMFS_CACHE_TYPE" b) = some "ram" →
      fs.opts.getValue (fs.MkCacheParm "CVMFS_CACHE_TYPE" c) = some "ram" →
      fs.opts.getValue (fs.MkCacheParm "CVMFS_CACHE_MALLOC" b) = none →
      fs.opts.getValue (fs.MkCacheParm "CVMFS_CACHE_MALLOC" c) = none →
      fs.opts.getValue (fs.MkCacheParm "CVMFS_CACHE_SIZE" b) = none →
      fs.opts.getValue (fs.MkCacheParm "CVMFS_CACHE_SIZE" c) = none →
      fs.opts.getValue "CVMFS_NFILES" = none →
      env.tieredCreateOk = true →
      (FileSystem.SetupCacheMgr env (fuel + 2) fs a).1 =
        some (.tiered
          (.ram (RoundUp8 (max (200 * 1024 * 1024) (env.memsize / 2 ^ 5)))
            kDefaultNfiles .kMallocHeap)
          (.ram (RoundUp8 (max (200 * 1024 * 1024) (env.memsize / 2 ^ 5)))
            kDefaultNfiles .kMallocHeap)) ∧
      (FileSystem.SetupCacheMgr env (fuel + 2) fs a).2.1.constructed_instances =
        [c, b, a] ∧
      (FileSystem.SetupCacheMgr env (fuel + 2) fs a).2.1.boot_status =
        fs.boot_status) := by
  refine ⟨?_, ?_, ?_⟩
  · intro fs inst fuel h
    rw [FileSystem.SetupCacheMgr]
    rw [if_pos (by simpa using h)]
  · intro fs inst fuel hnc hd ht hu
    rw [show fuel + 2 = (fuel + 1) + 1 by omega]
    rw [setupCacheMgr_succ env (fuel + 1) fs inst hnc]
    simp only [if_neg hd, mkCacheParm_constructed, ht]
    norm_num [tag_tiered_ne_posix, tag_tiered_ne_ram,
      FileSystem.SetupTieredCacheMgr, mkCacheParm_constructed, hu,
      FileSystem.SetupCacheMgr]
  · intro fs a b c fuel h0 hab hac hbc had hbd hcd hta hua hla htb htc hmb
      hmc hsb hsc hnf hok
    rw [show fuel + 2 = (fuel + 1) + 1 by omega]
    rw [setupCacheMgr_succ env (fuel + 1) fs a (by simp [h0])]
    simp only [if_neg had, mkCacheParm_constructed, hta]
    norm_num [tag_tiered_ne_posix, tag_tiered_ne_ram,
      FileSystem.SetupTieredCacheMgr, mkCacheParm_constructed, hua, hla]
    rw [setupCacheMgr_succ env fuel _ b (by simp [h0, Ne.symm hab])]
    simp only [if_neg hbd, mkCacheParm_constructed, htb]
    norm_num [tag_ram_ne_posix,
      FileSystem.SetupRamCacheMgr, mkCacheParm_constructed, hmb, hsb, hnf]
    rw [hla]
    try simp only []
    rw [setupCacheMgr_succ env fuel _ c (by simp [h0, Ne.symm hac, Ne.symm hbc])]
    simp only [if_neg hcd, mkCacheParm_constructed, htc]
    norm_num [tag_ram_ne_posix,
      FileSystem.SetupRamCacheMgr, mkCacheParm_constructed, hmc, hsc,
      hnf, hok, h0]

/-- C3 (witness): the concrete chain `tier1 = tiered(upper: fast,
lower: slow)` over two ram instances resolves to the tiered composite
owning both children. -/
theorem c3_witness :
    (FileSystem.SetupCacheMgr envA 5 (FileSystem.init (infoOf (optsOf
      [("CVMFS_CACHE_tier1_TYPE", "tiered"),
       ("CVMFS_CACHE_tier1_UPPER", "fast"),
       ("CVMFS_CACHE_tier1_LOWER", "slow"),
       ("CVMFS_CACHE_fast_TYPE", "ram"),
       ("CVMFS_CACHE_slow_TYPE", "ram")]) .kFsFuse false)) "tier1").1 =
      some (.tiered
        (.ram (RoundUp8 (max (200 * 1024 * 1024) (envA.memsize / 2 ^ 5)))
          kDefaultNfiles .kMallocHeap)
        (.ram (RoundUp8 (max (200 * 1024 * 1024) (envA.memsize / 2 ^ 5)))
          kDefaultNfiles .kMallocHeap)) ∧
    (FileSystem.SetupCacheMgr envA 5 (FileSystem.init (infoOf (optsOf
      [("CVMFS_CACHE_tier1_TYPE", "tiered"),
       ("CVMFS_CACHE_tier1_UPPER", "fast"),
       ("CVMFS_CACHE_tier1_LOWER", "slow"),
       ("CVMFS_CACHE_fast_TYPE", "ram"),
       ("CVMFS_CACHE_slow_TYPE", "ram")]) .kFsFuse false))
      "tier1").2.1.constructed_instances = ["slow", "fast", "tier1"] ∧
    (FileSystem.SetupCacheMgr envA 5 (FileSystem.init (infoOf (optsOf
      [("CVMFS_CACHE_tier1_TYPE", "tiered"),
       ("CVMFS_CACHE_tier1_UPPER", "fast"),
       ("CVMFS_CACHE_tier1_LOWER", "slow"),
       ("CVMFS_CACHE_fast_TYPE", "ram"),
       ("CVMFS_CACHE_slow_TYPE", "ram")]) .kFsFuse false))
      "tier1").2.1.boot_status =
      (FileSystem.init (infoOf (optsOf
      [("CVMFS_CACHE_tier1_TYPE", "tiered"),
       ("CVMFS_CACHE_tier1_UPPER", "fast"),
       ("CVMFS_CACHE_tier1_LOWER", "slow"),
       ("CVMFS_CACHE_fast_TYPE", "ram"),
       ("CVMFS_CACHE_slow_TYPE", "ram")]) .kFsFuse false)).boot_status :=
  (c3_cycle_detection_and_tiers envA).2.2 (FileSystem.init (infoOf (optsOf
      [("CVMFS_CACHE_tier1_TYPE", "tiered"),
       ("CVMFS_CACHE_tier1_UPPER", "fast"),
       ("CVMFS_CACHE_tier1_LOWER", "slow"),
       ("CVMFS_CACHE_fast_TYPE", "ram"),
       ("CVMFS_CACHE_slow_TYPE", "ram")]) .kFsFuse false))
    "tier1" "fast" "slow" 3 (by decide) (by decide) (by decide) (by decide)
    (by decide) (by decide) (by decide) (by decide) (by decide) (by decide)
    (by decide) (by decide) (by decide) (by decide) (by decide) (by decide)
    (by decide) (by decide)

/-- `FetchHistory` succeeds when the manifest fetch works, the manifest
carries a history hash and the fetcher returns a valid descriptor. -/
theorem fetchHistory_ok (env : Env) (mp : MountPoint)
    (h1 : env.manifestFetchOk = true) (h2 : env.manifestHistoryHash ≠ .null)
    (h3 : ¬ env.fetchFd < 0) :
    MountPoint.FetchHistory env mp =
      (some ("@" ++ toString env.fetchFd), mp, [.manifestFetch, .historyFetch]) := by
  unfold MountPoint.FetchHistory
  simp [h1, h2, h3]

/-- `SetupOwnerMaps` is the identity when no owner maps are configured. -/
theorem setupOwnerMaps_none (env : Env) (mp : MountPoint)
    (h1 : mp.opts.getValue "CVMFS_UID_MAP" = none)
    (h2 : mp.opts.getValue "CVMFS_GID_MAP" = none) :
    MountPoint.SetupOwnerMaps env mp = (true, mp) := by
  unfold MountPoint.SetupOwnerMaps
  simp [h1, h2]

/-- `DetermineRootHash` with an explicitly configured root hash. -/
theorem determineRootHash_hash_eq (env : Env) (mp : MountPoint) (v : String)
    (hv : mp.opts.getValue "CVMFS_ROOT_HASH" = some v) :
    MountPoint.DetermineRootHash env mp = (some (env.mkFromHexPtr v), mp, []) := by
  unfold MountPoint.DetermineRootHash
  rw [hv]

/-- `DetermineRootHash` with neither tag nor date: the null "track the
live head" sentinel. -/
theorem determineRootHash_head_eq (env : Env) (mp : MountPoint)
    (hv : mp.opts.getValue "CVMFS_ROOT_HASH" = none)
    (ht : mp.opts.getValue "CVMFS_REPOSITORY_TAG" = none)
    (hd : mp.opts.getValue "CVMFS_REPOSITORY_DATE" = none) :
    MountPoint.DetermineRootHash env mp = (some .null, mp, []) := by
  unfold MountPoint.DetermineRootHash
  rw [hv]
  simp [OptionsMgr.isDefined, ht, hd]

/-- `DetermineRootHash` by date over a two-tag database: the latest tag
at or before the requested instant. -/
theorem determineRootHash_date_eq (env : Env) (mp : MountPoint)
    (n1 n2 : String) (h1 h2 : RootHash) (t1 t2 d : Int) (ds : String)
    (hv : mp.opts.getValue "CVMFS_ROOT_HASH" = none)
    (ht : mp.opts.getValue "CVMFS_REPOSITORY_TAG" = none)
    (hdate : mp.opts.getValue "CVMFS_REPOSITORY_DATE" = some ds)
    (hmf : env.manifestFetchOk = true)
    (hmh : env.manifestHistoryHash ≠ .null)
    (hfd : ¬ env.fetchFd < 0)
    (hdb : env.sqliteHistoryOpen ("@" ++ toString env.fetchFd) =
      some ⟨[⟨n1, h1, t1⟩, ⟨n2, h2, t2⟩]⟩)
    (hiso : env.isoTimestamp2UtcTime ds = d) (hd0 : d ≠ 0)
    (hd1 : t1 ≤ d) (hd2 : d < t2) :
    MountPoint.DetermineRootHash env mp =
      (some h1, { mp with repository_tag := n1 },
       [.manifestFetch, .historyFetch,
        .historyOpen ("@" ++ toString env.fetchFd)]) := by
  unfold MountPoint.DetermineRootHash
  rw [hv]
  rw [if_neg (by simp [OptionsMgr.isDefined, hdate])]
  rw [fetchHistory_ok env mp hmf hmh hfd]
  simp only [hdb, ht, hdate, Option.getD_some, hiso]
  rw [if_neg (by simp [hd0])]
  have hgd : TagDb.getByDate ⟨[⟨n1, h1, t1⟩, ⟨n2, h2, t2⟩]⟩ d =
      some ⟨n1, h1, t1⟩ := by
    simp [TagDb.getByDate, hd1, not_le.mpr hd2]
  rw [hgd]
  simp

/-- `DetermineRootHash` by explicit tag name over a two-tag database:
exact lookup. -/
theorem determineRootHash_name_eq (env : Env) (mp : MountPoint)
    (n1 n2 : String) (h1 h2 : RootHash) (t1 t2 : Int)
    (hv : mp.opts.getValue "CVMFS_ROOT_HASH" = none)
    (ht : mp.opts.getValue "CVMFS_REPOSITORY_TAG" = some n2)
    (hn : n1 ≠ n2)
    (hmf : env.manifestFetchOk = true)
    (hmh : env.manifestHistoryHash ≠ .null)
    (hfd : ¬ env.fetchFd < 0)
    (hdb : env.sqliteHistoryOpen ("@" ++ toString env.fetchFd) =
      some ⟨[⟨n1, h1, t1⟩, ⟨n2, h2, t2⟩]⟩) :
    MountPoint.DetermineRootHash env mp =
      (some h2, { mp with repository_tag := n2 },
       [.manifestFetch, .historyFetch,
        .historyOpen ("@" ++ toString env.fetchFd)]) := by
  unfold MountPoint.DetermineRootHash
  rw [hv]
  rw [if_neg (by simp [OptionsMgr.isDefined, ht])]
  rw [fetchHistory_ok env mp hmf hmh hfd]
  simp only [hdb, ht]
  have hgn : TagDb.getByName ⟨[⟨n1, h1, t1⟩, ⟨n2, h2, t2⟩]⟩ n2 =
      some ⟨n2, h2, t2⟩ := by
    simp [TagDb.getByName, List.find?, hn]
  rw [hgn]
  simp

/-- `DetermineRootHash` with a tag name that is not in the database:
fatal with the History code. -/
theorem determineRootHash_missing_eq (env : Env) (mp : MountPoint)
    (q : String) (db : TagDb)
    (hv : mp.opts.getValue "CVMFS_ROOT_HASH" = none)
    (ht : mp.opts.getValue "CVMFS_REPOSITORY_TAG" = some q)
    (hmf : env.manifestFetchOk = true)
    (hmh : env.manifestHistoryHash ≠ .null)
    (hfd : ¬ env.fetchFd < 0)
    (hdb : env.sqliteHistoryOpen ("@" ++ toString env.fetchFd) = some db)
    (hgn : TagDb.getByName db q = none) :
    (MountPoint.DetermineRootHash env mp).1 = none ∧
    (MountPoint.DetermineRootHash env mp).2.1.boot_status = .kFailHistory ∧
    (MountPoint.DetermineRootHash env mp).2.1.boot_error = "no such tag: " ++ q := by
  unfold MountPoint.DetermineRootHash
  rw [hv]
  rw [if_neg (by simp [OptionsMgr.isDefined, ht])]
  rw [fetchHistory_ok env mp hmf hmh hfd]
  simp only [hdb, ht, hgn]
  simp

/-- C2 (amended): root-hash resolution.  (1) With `CVMFS_ROOT_HASH`
configured, the resolved hash is exactly the parsed configured hash.
(2) When that hash is non-null, the mount is flagged fixed.  (3) With
neither tag nor date configured the result is the null "track head"
sentinel, and — provided auto-update is not explicitly disabled — the
mount is not flagged fixed.  (4) For a tag database `{n1 @ t1, n2 @ t2}`
with `t1 ≤ d < t2`, resolving by date `d` yields `n1`'s root hash and
records its tag name, and a non-null hash resolved this way flags the
mount fixed.  (5) Resolving by explicit tag name yields exactly that
tag's hash and records its name, and a non-null hash resolved this way
flags the mount fixed.  (6) A missing tag is fatal with the History
code. -/
theorem c2_root_hash_resolution (env : Env) (mp : MountPoint) :
    (∀ v, mp.opts.getValue "CVMFS_ROOT_HASH" = some v →
      MountPoint.DetermineRootHash env mp =
        (some (env.mkFromHexPtr v), mp, [])) ∧
    (∀ v d, mp.opts.getValue "CVMFS_ROOT_HASH" = some v →
      env.mkFromHexPtr v = .hash d →
      mp.opts.getValue "CVMFS_UID_MAP" = none →
      mp.opts.getValue "CVMFS_GID_MAP" = none →
      (MountPoint.CreateCatalogManager env mp).2.1.fixed_catalog = true) ∧
    (mp.opts.getValue "CVMFS_ROOT_HASH" = none →
      mp.opts.getValue "CVMFS_REPOSITORY_TAG" = none →
      mp.opts.getValue "CVMFS_REPOSITORY_DATE" = none →
      MountPoint.DetermineRootHash env mp = (some .null, mp, []) ∧
      (mp.opts.getValue "CVMFS_UID_MAP" = none →
        mp.opts.getValue "CVMFS_GID_MAP" = none →
        env.catalogInitOk = true → mp.fixed_catalog = false →
        ((mp.opts.getValue "CVMFS_AUTO_UPDATE").map
          (fun x => ! mp.opts.isOn x)).getD false = false →
        (MountPoint.CreateCatalogManager env mp).1 = true ∧
        (MountPoint.CreateCatalogManager env mp).2.1.fixed_catalog = false)) ∧
    (∀ (n1 n2 : String) (h1 h2 : RootHash) (t1 t2 d : Int) (ds : String),
      mp.opts.getValue "CVMFS_ROOT_HASH" = none →
      mp.opts.getValue "CVMFS_REPOSITORY_TAG" = none →
      mp.opts.getValue "CVMFS_REPOSITORY_DATE" = some ds →
      env.manifestFetchOk = true → env.manifestHistoryHash ≠ .null →
      ¬ env.fetchFd < 0 →
      env.sqliteHistoryOpen ("@" ++ toString env.fetchFd) =
        some ⟨[⟨n1, h1, t1⟩, ⟨n2, h2, t2⟩]⟩ →
      env.isoTimestamp2UtcTime ds = d → d ≠ 0 → t1 ≤ d → d < t2 →
      (MountPoint.DetermineRootHash env mp).1 = some h1 ∧
      (MountPoint.DetermineRootHash env mp).2.1.repository_tag = n1 ∧
      (∀ x, h1 = .hash x →
        mp.opts.getValue "CVMFS_UID_MAP" = none →
        mp.opts.getValue "CVMFS_GID_MAP" = none →
        (MountPoint.CreateCatalogManager env mp).2.1.fixed_catalog = true)) ∧
    (∀ (n1 n2 : String) (h1 h2 : RootHash) (t1 t2 : Int),
      mp.opts.getValue "CVMFS_ROOT_HASH" = none →
      mp.opts.getValue "CVMFS_REPOSITORY_TAG" = some n2 → n1 ≠ n2 →
      env.manifestFetchOk = true → env.manifestHistoryHash ≠ .null →
      ¬ env.fetchFd < 0 →
      env.sqliteHistoryOpen ("@" ++ toString env.fetchFd) =
        some ⟨[⟨n1, h1, t1⟩, ⟨n2, h2, t2⟩]⟩ →
      (MountPoint.DetermineRootHash env mp).1 = some h2 ∧
      (MountPoint.DetermineRootHash env mp).2.1.repository_tag = n2 ∧
      (∀ x, h2 = .hash x →
        mp.opts.getValue "CVMFS_UID_MAP" = none →
        mp.opts.getValue "CVMFS_GID_MAP" = none →
        (MountPoint.CreateCatalogManager env mp).2.1.fixed_catalog = true)) ∧
    (∀ (q : String) (db : TagDb),
      mp.opts.getValue "CVMFS_ROOT_HASH" = none →
      mp.opts.getValue "CVMFS_REPOSITORY_TAG" = some q →
      env.manifestFetchOk = true → env.manifestHistoryHash ≠ .null →
      ¬ env.fetchFd < 0 →
      env.sqliteHistoryOpen ("@" ++ toString env.fetchFd) = some db →
      TagDb.getByName db q = none →
      (MountPoint.DetermineRootHash env mp).1 = none ∧
      (MountPoint.DetermineRootHash env mp).2.1.boot_status = .kFailHistory ∧
      (MountPoint.DetermineRootHash env mp).2.1.boot_error =
        "no such tag: " ++ q) := by
  refine ⟨?_, ?_, ?_, ?_, ?_, ?_⟩
  · intro v hv
    exact determineRootHash_hash_eq env mp v hv
  · intro v d hv hd huid hgid
    dsimp only [MountPoint.CreateCatalogManager]
    rw [setupOwnerMaps_none env
      (MountPoint.SetupInodeAnnot { mp with has_catalog_mgr := true }) huid hgid]
    rw [determineRootHash_hash_eq env
      (MountPoint.SetupInodeAnnot { mp with has_catalog_mgr := true }) v hv]
    rw [hd]
    by_cases hi : env.catalogInitFixedOk (RootHash.hash d) = true <;>
      simp [hi, MountPoint.SetupInodeAnnot]
  · intro hv ht hd
    refine ⟨determineRootHash_head_eq env mp hv ht hd, ?_⟩
    intro huid hgid hinit hfc hau
    dsimp only [MountPoint.CreateCatalogManager]
    rw [setupOwnerMaps_none env
      (MountPoint.SetupInodeAnnot { mp with has_catalog_mgr := true }) huid hgid]
    rw [determineRootHash_head_eq env
      (MountPoint.SetupInodeAnnot { mp with has_catalog_mgr := true }) hv ht hd]
    simp [MountPoint.SetupInodeAnnot, hinit, hau, hfc]
  · intro n1 n2 h1 h2 t1 t2 d ds hv ht hdate hmf hmh hfd hdb hiso hd0 hd1 hd2
    refine ⟨?_, ?_, ?_⟩
    · rw [determineRootHash_date_eq env mp n1 n2 h1 h2 t1 t2 d ds hv ht hdate
        hmf hmh hfd hdb hiso hd0 hd1 hd2]
    · rw [determineRootHash_date_eq env mp n1 n2 h1 h2 t1 t2 d ds hv ht hdate
        hmf hmh hfd hdb hiso hd0 hd1 hd2]
    · intro x hx huid hgid
      dsimp only [MountPoint.CreateCatalogManager]
      rw [setupOwnerMaps_none env
        (MountPoint.SetupInodeAnnot { mp with has_catalog_mgr := true }) huid hgid]
      rw [determineRootHash_date_eq env
        (MountPoint.SetupInodeAnnot { mp with has_catalog_mgr := true })
        n1 n2 h1 h2 t1 t2 d ds hv ht hdate hmf hmh hfd hdb hiso hd0 hd1 hd2]
      rw [hx]
      by_cases hi : env.catalogInitFixedOk (RootHash.hash x) = true <;>
        simp [hi, MountPoint.SetupInodeAnnot]
  · intro n1 n2 h1 h2 t1 t2 hv ht hn hmf hmh hfd hdb
    refine ⟨?_, ?_, ?_⟩
    · rw [determineRootHash_name_eq env mp n1 n2 h1 h2 t1 t2 hv ht hn hmf hmh
        hfd hdb]
    · rw [determineRootHash_name_eq env mp n1 n2 h1 h2 t1 t2 hv ht hn hmf hmh
        hfd hdb]
    · intro x hx huid hgid
      dsimp only [MountPoint.CreateCatalogManager]
      rw [setupOwnerMaps_none env
        (MountPoint.SetupInodeAnnot { mp with has_catalog_mgr := true }) huid hgid]
      rw [determineRootHash_name_eq env
        (MountPoint.SetupInodeAnnot { mp with has_catalog_mgr := true })
        n1 n2 h1 h2 t1 t2 hv ht hn hmf hmh hfd hdb]
      rw [hx]
      by_cases hi : env.catalogInitFixedOk (RootHash.hash x) = true <;>
        simp [hi, MountPoint.SetupInodeAnnot]
  · intro q db hv ht hmf hmh hfd hdb hgn
    exact determineRootHash_missing_eq env mp q db hv ht hmf hmh hfd hdb hgn

/-- C2 (counterexample): the claim says that with neither tag nor date
configured the result is the null sentinel "and the mount is not
fixed".  With `CVMFS_AUTO_UPDATE=no` (and no hash/tag/date) the root
hash resolves to the null sentinel, catalog construction succeeds at
the live head, yet `fixed_catalog_` is set — the mount is fixed. -/
theorem c2_counterexample :
    (MountPoint.DetermineRootHash envA (MountPoint.init envA "demo.cern.ch"
      fsA (some (optsOf [("CVMFS_AUTO_UPDATE", "no")])))).1 = some .null ∧
    (MountPoint.CreateCatalogManager envA (MountPoint.init envA "demo.cern.ch"
      fsA (some (optsOf [("CVMFS_AUTO_UPDATE", "no")])))).1 = true ∧
    (MountPoint.CreateCatalogManager envA (MountPoint.init envA "demo.cern.ch"
      fsA (some (optsOf [("CVMFS_AUTO_UPDATE", "no")])))).2.1.fixed_catalog =
      true := by
  decide

/-- C2 (witness): the amended theorem's date-resolution conjunct at a
concrete two-tag database `{v1 @ 100, v2 @ 200}` and date 150: tag v1's
hash is resolved, its name recorded, and the mount flagged fixed. -/
theorem c2_witness :
    (MountPoint.DetermineRootHash
      { envA with
        sqliteHistoryOpen := fun p =>
          if p = "@3" then
            some ⟨[⟨"v1", .hash "h1", 100⟩, ⟨"v2", .hash "h2", 200⟩]⟩
          else none
        isoTimestamp2UtcTime := fun _ => 150 }
      (MountPoint.init envA "demo.cern.ch" fsA
        (some (optsOf [("CVMFS_REPOSITORY_DATE", "2024-01-01T00:00:00Z")])))).1 =
      some (.hash "h1") ∧
    (MountPoint.DetermineRootHash
      { envA with
        sqliteHistoryOpen := fun p =>
          if p = "@3" then
            some ⟨[⟨"v1", .hash "h1", 100⟩, ⟨"v2", .hash "h2", 200⟩]⟩
          else none
        isoTimestamp2UtcTime := fun _ => 150 }
      (MountPoint.init envA "demo.cern.ch" fsA
        (some (optsOf [("CVMFS_REPOSITORY_DATE", "2024-01-01T00:00:00Z")])))).2.1.repository_tag =
      "v1" ∧
    (MountPoint.CreateCatalogManager
      { envA with
        sqliteHistoryOpen := fun p =>
          if p = "@3" then
            some ⟨[⟨"v1", .hash "h1", 100⟩, ⟨"v2", .hash "h2", 200⟩]⟩
          else none
        isoTimestamp2UtcTime := fun _ => 150 }
      (MountPoint.init envA "demo.cern.ch" fsA
        (some (optsOf [("CVMFS_REPOSITORY_DATE", "2024-01-01T00:00:00Z")])))).2.1.fixed_catalog =
      true := by
  have h := (c2_root_hash_resolution
    { envA with
      sqliteHistoryOpen := fun p =>
        if p = "@3" then
          some ⟨[⟨"v1", .hash "h1", 100⟩, ⟨"v2", .hash "h2", 200⟩]⟩
        else none
      isoTimestamp2UtcTime := fun _ => 150 }
    (MountPoint.init envA "demo.cern.ch" fsA
      (some (optsOf [("CVMFS_REPOSITORY_DATE", "2024-01-01T00:00:00Z")])))).2.2.2.1
    "v1" "v2" (.hash "h1") (.hash "h2") 100 200 150 "2024-01-01T00:00:00Z"
    (by decide) (by decide) (by decide) (by decide) (by decide) (by decide)
    (by decide) (by decide) (by decide) (by decide) (by decide)
  exact ⟨h.1, h.2.1, h.2.2 "h1" rfl (by decide) (by decide)⟩

/-- A successful `CreateSignatureManager` changes only the
signature-manager ownership flag. -/
theorem createSignatureManager_ok_state (env : Env) (mp : MountPoint)
    (h : (MountPoint.CreateSignatureManager env mp).1 = true) :
    (MountPoint.CreateSignatureManager env mp).2.1 =
      { mp with has_signature_mgr := true } := by
  unfold MountPoint.CreateSignatureManager at *
  by_cases hk : env.loadPublicRsaKeysOk = true
  · cases hc : mp.opts.getValue "CVMFS_TRUSTED_CERTS" with
    | none => simp_all
    | some w =>
      by_cases ht : env.loadTrustedCaCrlOk = true <;> simp_all
  · simp_all

/-- `CreateSignatureManager` logs exactly the signature-setup events. -/
theorem createSignatureManager_events (env : Env) (mp : MountPoint) :
    (MountPoint.CreateSignatureManager env mp).2.2 =
      [.signatureInit, .loadPublicKeys] := by
  unfold MountPoint.CreateSignatureManager
  by_cases hk : env.loadPublicRsaKeysOk = true
  · cases hc : mp.opts.getValue "CVMFS_TRUSTED_CERTS" with
    | none => simp_all
    | some w =>
      by_cases ht : env.loadTrustedCaCrlOk = true <;> simp_all
  · simp_all

/-- A successful `CheckBlacklists` leaves the context unchanged. -/
theorem checkBlacklists_ok_state (env : Env) (mp : MountPoint)
    (h : (MountPoint.CheckBlacklists env mp).1 = true) :
    (MountPoint.CheckBlacklists env mp).2.1 = mp := by
  unfold MountPoint.CheckBlacklists at *
  by_cases h1 : env.fileExists
      ((mp.opts.getValue "CVMFS_BLACKLIST").getD kDefaultBlacklist) = true <;>
  by_cases h2 : env.loadBlacklistOk = true <;>
  · cases hc : mp.opts.hasConfigRepository mp.fqrn with
    | none => simp_all
    | some p =>
      by_cases h3 : env.fileExists (p ++ "blacklist") = true <;> simp_all

/-- Every event `CheckBlacklists` logs is a blacklist load. -/
theorem checkBlacklists_events (env : Env) (mp : MountPoint) :
    ∀ e ∈ (MountPoint.CheckBlacklists env mp).2.2, ∃ p, e = .loadBlacklist p := by
  unfold MountPoint.CheckBlacklists
  by_cases h1 : env.fileExists
      ((mp.opts.getValue "CVMFS_BLACKLIST").getD kDefaultBlacklist) = true <;>
  by_cases h2 : env.loadBlacklistOk = true <;>
  · cases hc : mp.opts.hasConfigRepository mp.fqrn with
    | none => simp_all
    | some p =>
      by_cases h3 : env.fileExists (p ++ "blacklist") = true <;> simp_all

/-- `CreateDownloadManagers` with an empty resolved proxy chain fails
with the proxy-discovery code after logging only the download-manager
construction and the proxy resolution. -/
theorem createDownloadManagers_wpad (env : Env) (mp : MountPoint)
    (hw : env.resolveProxyDescription
      ((mp.opts.getValue "CVMFS_HTTP_PROXY").getD "") = "") :
    MountPoint.CreateDownloadManagers env mp =
      (false,
       { mp with
         has_download_mgr := true
         boot_error := "failed to discover HTTP proxy servers"
         boot_status := .kFailWpad },
       [.downloadMgrInit,
        .resolveProxy ((mp.opts.getValue "CVMFS_HTTP_PROXY").getD "")]) := by
  unfold MountPoint.CreateDownloadManagers
  simp [hw]

/-- C8: if proxy-chain resolution returns the empty string while the
download manager is being set up, Mount Context construction aborts
with the proxy-discovery (Wpad) failure code and message, and the fetch
and catalog-client stages never execute: the fetchers and the catalog
manager remain unconstructed and no fetcher/catalog event is logged. -/
theorem c8_wpad_aborts_mount (env : Env) (fqrn : String)
    (file_system : FileSystem) (options_mgr : Option OptionsMgr)
    (hsig : (MountPoint.CreateSignatureManager env
      { MountPoint.init env fqrn file_system options_mgr with
        has_statistics := true, has_authz := true,
        has_backoff_throttle := true }).1 = true)
    (hbl : (MountPoint.CheckBlacklists env
      { { MountPoint.init env fqrn file_system options_mgr with
          has_statistics := true, has_authz := true,
          has_backoff_throttle := true } with
        has_signature_mgr := true }).1 = true)
    (hw : env.resolveProxyDescription
      (((MountPoint.init env fqrn file_system options_mgr).opts.getValue
        "CVMFS_HTTP_PROXY").getD "") = "") :
    (MountPoint.Create env fqrn file_system options_mgr).1.boot_status =
      .kFailWpad ∧
    (MountPoint.Create env fqrn file_system options_mgr).1.boot_error =
      "failed to discover HTTP proxy servers" ∧
    (MountPoint.Create env fqrn file_system options_mgr).1.has_fetcher =
      false ∧
    (MountPoint.Create env fqrn file_system options_mgr).1.has_external_fetcher =
      false ∧
    (MountPoint.Create env fqrn file_system options_mgr).1.has_catalog_mgr =
      false ∧
    (∀ e ∈ (MountPoint.Create env fqrn file_system options_mgr).2,
      e ≠ .fetcherCreate false ∧ e ≠ .fetcherCreate true ∧
      e ≠ .catalogMgrCreate ∧ e ≠ .catalogInit ∧ e ≠ .catalogInitFixed) := by
  have hstate := createSignatureManager_ok_state env
    { MountPoint.init env fqrn file_system options_mgr with
      has_statistics := true, has_authz := true,
      has_backoff_throttle := true } hsig
  have hev1 := createSignatureManager_events env
    { MountPoint.init env fqrn file_system options_mgr with
      has_statistics := true, has_authz := true,
      has_backoff_throttle := true }
  have hblstate := checkBlacklists_ok_state env
    { { MountPoint.init env fqrn file_system options_mgr with
        has_statistics := true, has_authz := true,
        has_backoff_throttle := true } with
      has_signature_mgr := true } hbl
  have hev2 := checkBlacklists_events env
    { { MountPoint.init env fqrn file_system options_mgr with
        has_statistics := true, has_authz := true,
        has_backoff_throttle := true } with
      has_signature_mgr := true }
  have hdm := createDownloadManagers_wpad env
    { { MountPoint.init env fqrn file_system options_mgr with
        has_statistics := true, has_authz := true,
        has_backoff_throttle := true } with
      has_signature_mgr := true } hw
  dsimp only [MountPoint.Create]
  simp only [hsig, hstate, hev1, hbl, hblstate, hdm]
  norm_num
  refine ⟨by simp [MountPoint.init], by simp [MountPoint.init],
    by simp [MountPoint.init], by simp, by simp, ?_⟩
  intro a ha
  rcases ha with hbl2 | rfl | rfl
  · obtain ⟨p, rfl⟩ := checkBlacklists_events env _ a hbl2
    simp
  · simp
  · simp

/-- C8 (witness): with proxy discovery returning the empty chain, a
concrete mount aborts with the Wpad code and neither the fetchers nor
the catalog manager exist. -/
theorem c8_witness :
    (MountPoint.Create { envA with resolveProxyDescription := fun _ => "" }
      "demo.cern.ch" fsA none).1.boot_status = .kFailWpad ∧
    (MountPoint.Create { envA with resolveProxyDescription := fun _ => "" }
      "demo.cern.ch" fsA none).1.boot_error =
      "failed to discover HTTP proxy servers" ∧
    (MountPoint.Create { envA with resolveProxyDescription := fun _ => "" }
      "demo.cern.ch" fsA none).1.has_fetcher = false ∧
    (MountPoint.Create { envA with resolveProxyDescription := fun _ => "" }
      "demo.cern.ch" fsA none).1.has_external_fetcher = false ∧
    (MountPoint.Create { envA with resolveProxyDescription := fun _ => "" }
      "demo.cern.ch" fsA none).1.has_catalog_mgr = false := by
  have h := c8_wpad_aborts_mount
    { envA with resolveProxyDescription := fun _ => "" }
    "demo.cern.ch" fsA none (by decide) (by decide) (by decide)
  exact ⟨h.1, h.2.1, h.2.2.1, h.2.2.2.1, h.2.2.2.2.1⟩

/-- `DetermineNfsMode` either preserves the boot status (in particular
on success) or fails having set a non-ok status. -/
theorem determineNfsMode_status (fs : FileSystem) :
    (FileSystem.DetermineNfsMode fs).2.boot_status = fs.boot_status ∨
    ((FileSystem.DetermineNfsMode fs).1 = false ∧
     (FileSystem.DetermineNfsMode fs).2.boot_status ≠ .kFailOk) := by
  unfold FileSystem.DetermineNfsMode
  cases h1 : fs.opts.getValue "CVMFS_NFS_SOURCE" with
  | none =>
    dsimp only []
    split_ifs <;> simp_all
  | some v =>
    dsimp only []
    by_cases h2 : fs.opts.isOn v = true
    · simp only [h2, if_true]
      cases h3 : fs.opts.getValue "CVMFS_NFS_SHARED" with
      | none =>
        dsimp only []
        split_ifs <;> simp_all
      | some w =>
        dsimp only []
        split_ifs <;> simp_all
    · simp only [h2, if_false]
      split_ifs <;> simp_all

/-- `DetermineNfsMode` succeeds with the boot status untouched. -/
theorem determineNfsMode_ok_status (fs : FileSystem)
    (h : (FileSystem.DetermineNfsMode fs).1 = true) :
    (FileSystem.DetermineNfsMode fs).2.boot_status = fs.boot_status := by
  rcases determineNfsMode_status fs with hp | hf
  · exact hp
  · rw [h] at hf; simp at hf

/-- `LockWorkspace` either preserves the boot status or fails with a
non-ok status. -/
theorem lockWorkspace_status (env : Env) (fs : FileSystem) :
    (FileSystem.LockWorkspace env fs).2.1.boot_status = fs.boot_status ∨
    ((FileSystem.LockWorkspace env fs).1 = false ∧
     (FileSystem.LockWorkspace env fs).2.1.boot_status ≠ .kFailOk) := by
  unfold FileSystem.LockWorkspace
  dsimp only []
  split_ifs <;> simp_all

/-- `SetupCwd` either preserves the boot status or fails non-ok. -/
theorem setupCwd_status (env : Env) (fs : FileSystem) :
    (FileSystem.SetupCwd env fs).2.1.boot_status = fs.boot_status ∨
    ((FileSystem.SetupCwd env fs).1 = false ∧
     (FileSystem.SetupCwd env fs).2.1.boot_status ≠ .kFailOk) := by
  unfold FileSystem.SetupCwd
  try dsimp only []
  split_ifs <;> simp_all

/-- `SetupCrashGuard` either preserves the boot status or fails non-ok. -/
theorem setupCrashGuard_status (env : Env) (fs : FileSystem) :
    (FileSystem.SetupCrashGuard env fs).2.1.boot_status = fs.boot_status ∨
    ((FileSystem.SetupCrashGuard env fs).1 = false ∧
     (FileSystem.SetupCrashGuard env fs).2.1.boot_status ≠ .kFailOk) := by
  unfold FileSystem.SetupCrashGuard
  try dsimp only []
  split_ifs <;> simp_all

/-- `SetupWorkspace` either preserves the boot status or fails non-ok. -/
theorem setupWorkspace_status (env : Env) (fs : FileSystem) :
    (FileSystem.SetupWorkspace env fs).2.1.boot_status = fs.boot_status ∨
    ((FileSystem.SetupWorkspace env fs).1 = false ∧
     (FileSystem.SetupWorkspace env fs).2.1.boot_status ≠ .kFailOk) := by
  by_cases h0 : ((fs.opts.getValue "CVMFS_CACHE_DIR").isSome = true ∧
      fs.opts.isDefined "CVMFS_CACHE_BASE" = true)
  · unfold FileSystem.SetupWorkspace
    rw [if_pos h0]
    simp
  · have hL := lockWorkspace_status env
      { fs with workspace := FileSystem.ResolveWorkspaceDir env fs,
                workspace_fullpath := FileSystem.ResolveWorkspaceDir env fs }
    rcases hr1 : FileSystem.LockWorkspace env
      { fs with workspace := FileSystem.ResolveWorkspaceDir env fs,
                workspace_fullpath := FileSystem.ResolveWorkspaceDir env fs }
      with ⟨b1, fs1, ev1⟩
    rw [hr1] at hL
    have hC := setupCwd_status env fs1
    rcases hr2 : FileSystem.SetupCwd env fs1 with ⟨b2, fs2, ev2⟩
    rw [hr2] at hC
    have hG := setupCrashGuard_status env fs2
    rcases hr3 : FileSystem.SetupCrashGuard env fs2 with ⟨b3, fs3, ev3⟩
    rw [hr3] at hG
    unfold FileSystem.SetupWorkspace
    rw [if_neg h0]
    simp only [hr1, hr2, hr3]
    rcases hL with hL | hL <;> rcases hC with hC | hC <;>
      rcases hG with hG | hG <;> split_ifs <;> simp_all

/-- `SetupPosixQuotaMgr` either preserves the boot status or fails
non-ok. -/
theorem setupPosixQuotaMgr_status (env : Env) (fs : FileSystem)
    (settings : PosixCacheSettings) :
    (FileSystem.SetupPosixQuotaMgr env fs settings).2.1.boot_status =
      fs.boot_status ∨
    ((FileSystem.SetupPosixQuotaMgr env fs settings).1 = false ∧
     (FileSystem.SetupPosixQuotaMgr env fs settings).2.1.boot_status ≠
       .kFailOk) := by
  unfold FileSystem.SetupPosixQuotaMgr
  dsimp only []
  split_ifs <;> simp_all

/-- `CheckPosixCacheSettings` either preserves the boot status or fails
non-ok. -/
theorem checkPosixCacheSettings_status (fs : FileSystem)
    (s : PosixCacheSettings) :
    (FileSystem.CheckPosixCacheSettings fs s).2.boot_status =
      fs.boot_status ∨
    ((FileSystem.CheckPosixCacheSettings fs s).1 = false ∧
     (FileSystem.CheckPosixCacheSettings fs s).2.boot_status ≠ .kFailOk) := by
  unfold FileSystem.CheckPosixCacheSettings
  split_ifs <;> simp_all

/-- `SetupPosixCacheMgr` either preserves the boot status or fails
non-ok. -/
theorem setupPosixCacheMgr_status (env : Env) (fs : FileSystem)
    (inst : String) :
    (FileSystem.SetupPosixCacheMgr env fs inst).2.1.boot_status =
      fs.boot_status ∨
    ((FileSystem.SetupPosixCacheMgr env fs inst).1 = none ∧
     (FileSystem.SetupPosixCacheMgr env fs inst).2.1.boot_status ≠
       .kFailOk) := by
  have hchk := checkPosixCacheSettings_status fs
    (FileSystem.DeterminePosixCacheSettings env fs inst)
  rcases hc : FileSystem.CheckPosixCacheSettings fs
      (FileSystem.DeterminePosixCacheSettings env fs inst) with ⟨bc, fsc⟩
  rw [hc] at hchk
  have hq := setupPosixQuotaMgr_status env fs
    (FileSystem.DeterminePosixCacheSettings env fs inst)
  rcases hqr : FileSystem.SetupPosixQuotaMgr env fs
      (FileSystem.DeterminePosixCacheSettings env fs inst) with ⟨bq, fsq, evq⟩
  rw [hqr] at hq
  unfold FileSystem.SetupPosixCacheMgr
  simp only [hc, hqr]
  rcases hchk with h | h <;> rcases hq with h2 | h2 <;>
    split_ifs <;> simp_all

/-- `SetupRamCacheMgr` either preserves the boot status or fails
non-ok. -/
theorem setupRamCacheMgr_status (env : Env) (fs : FileSystem)
    (inst : String) :
    (FileSystem.SetupRamCacheMgr env fs inst).2.1.boot_status =
      fs.boot_status ∨
    ((FileSystem.SetupRamCacheMgr env fs inst).1 = none ∧
     (FileSystem.SetupRamCacheMgr env fs inst).2.1.boot_status ≠
       .kFailOk) := by
  unfold FileSystem.SetupRamCacheMgr
  dsimp only []
  cases hm : fs.opts.getValue (fs.MkCacheParm "CVMFS_CACHE_MALLOC" inst) with
  | none => simp_all
  | some v =>
    dsimp only []
    split_ifs <;> simp_all

/-- `SetupExternalCacheMgr` either preserves the boot status or fails
non-ok. -/
theorem setupExternalCacheMgr_status (env : Env) (fs : FileSystem)
    (inst : String) :
    (FileSystem.SetupExternalCacheMgr env fs inst).2.1.boot_status =
      fs.boot_status ∨
    ((FileSystem.SetupExternalCacheMgr env fs inst).1 = none ∧
     (FileSystem.SetupExternalCacheMgr env fs inst).2.1.boot_status ≠
       .kFailOk) := by
  unfold FileSystem.SetupExternalCacheMgr
  dsimp only []
  cases hl : fs.opts.getValue (fs.MkCacheParm "CVMFS_CACHE_LOCATOR" inst) with
  | none => simp_all
  | some v =>
    dsimp only []
    split_ifs <;> simp_all

/-- `SetupTieredCacheMgr` either preserves the boot status or fails
non-ok, provided the child resolver does. -/
theorem setupTieredCacheMgr_status (env : Env) (fuel : Nat)
    (ih : ∀ (fs : FileSystem) (inst : String),
      (FileSystem.SetupCacheMgr env fuel fs inst).2.1.boot_status =
        fs.boot_status ∨
      ((FileSystem.SetupCacheMgr env fuel fs inst).1 = none ∧
       (FileSystem.SetupCacheMgr env fuel fs inst).2.1.boot_status ≠
         .kFailOk)) :
    ∀ (fs : FileSystem) (inst : String),
    (FileSystem.SetupTieredCacheMgr env fs inst fuel).2.1.boot_status =
      fs.boot_status ∨
    ((FileSystem.SetupTieredCacheMgr env fs inst fuel).1 = none ∧
     (FileSystem.SetupTieredCacheMgr env fs inst fuel).2.1.boot_status ≠
       .kFailOk) := by
  intro fs inst
  unfold FileSystem.SetupTieredCacheMgr
  cases hu : fs.opts.getValue (fs.MkCacheParm "CVMFS_CACHE_UPPER" inst) with
  | none => simp
  | some upper_name =>
    have hU := ih fs upper_name
    rcases hru : FileSystem.SetupCacheMgr env fuel fs upper_name
      with ⟨cmU, fsU, evU⟩
    rw [hru] at hU
    simp only [hru]
    cases cmU with
    | none => simpa using hU
    | some upper =>
      simp only [Option.some.injEq] at hU
      cases hl : fsU.opts.getValue (fsU.MkCacheParm "CVMFS_CACHE_LOWER" inst) with
      | none =>
        rcases hU with hU | hU
        · simp [hU]
        · simp at hU
      | some lower_name =>
        have hLo := ih fsU lower_name
        rcases hrl : FileSystem.SetupCacheMgr env fuel fsU lower_name
          with ⟨cmL, fsL, evL⟩
        rw [hrl] at hLo
        simp only [hrl]
        cases cmL with
        | none =>
          rcases hU with hU | hU
          · rcases hLo with hLo | hLo
            · simp at hLo
              simp [hLo, hU]
            · simp at hLo
              simp [hLo]
          · simp at hU
        | some lower =>
          rcases hU with hU | hU
          · rcases hLo with hLo | hLo
            · split_ifs <;> simp_all
            · simp at hLo
          · simp at hU

/-- `SetupCacheMgr` either preserves the boot status or fails non-ok,
for every fuel. -/
theorem setupCacheMgr_status (env : Env) :
    ∀ (fuel : Nat) (fs : FileSystem) (inst : String),
    (FileSystem.SetupCacheMgr env fuel fs inst).2.1.boot_status =
      fs.boot_status ∨
    ((FileSystem.SetupCacheMgr env fuel fs inst).1 = none ∧
     (FileSystem.SetupCacheMgr env fuel fs inst).2.1.boot_status ≠
       .kFailOk) := by
  intro fuel
  induction fuel with
  | zero => intro fs inst; left; rfl
  | succ fuel ih =>
    intro fs inst
    by_cases hnc : fs.constructed_instances.contains inst = true
    · rw [FileSystem.SetupCacheMgr, if_pos hnc]
      simp
    · rw [setupCacheMgr_succ env fuel fs inst (by simpa using hnc)]
      split_ifs
      all_goals
        first
        | (rcases setupPosixCacheMgr_status env
              { fs with constructed_instances := inst :: fs.constructed_instances }
              inst with h | h <;>
            first | (left; rw [h]) | (right; exact h))
        | (rcases setupRamCacheMgr_status env
              { fs with constructed_instances := inst :: fs.constructed_instances }
              inst with h | h <;>
            first | (left; rw [h]) | (right; exact h))
        | (rcases setupTieredCacheMgr_status env fuel ih
              { fs with constructed_instances := inst :: fs.constructed_instances }
              inst with h | h <;>
            first | (left; rw [h]) | (right; exact h))
        | (rcases setupExternalCacheMgr_status env
              { fs with constructed_instances := inst :: fs.constructed_instances }
              inst with h | h <;>
            first | (left; rw [h]) | (right; exact h))
        | (right; simp)

/-- `CheckInstanceName` either preserves the boot status (also on the
unrecorded over-length failure) or fails non-ok. -/
theorem checkInstanceName_status (fs : FileSystem) (inst : String) :
    (FileSystem.CheckInstanceName fs inst).2.boot_status = fs.boot_status ∨
    ((FileSystem.CheckInstanceName fs inst).1 = false ∧
     (FileSystem.CheckInstanceName fs inst).2.boot_status ≠ .kFailOk) := by
  unfold FileSystem.CheckInstanceName
  split_ifs <;> simp_all

/-- `TriageCacheMgr` either preserves the boot status or fails non-ok. -/
theorem triageCacheMgr_status (env : Env) (fuel : Nat) (fs : FileSystem) :
    (FileSystem.TriageCacheMgr env fuel fs).2.1.boot_status =
      fs.boot_status ∨
    ((FileSystem.TriageCacheMgr env fuel fs).1 = false ∧
     (FileSystem.TriageCacheMgr env fuel fs).2.1.boot_status ≠ .kFailOk) := by
  unfold FileSystem.TriageCacheMgr
  dsimp only []
  by_cases hp : (fs.opts.getValue "CVMFS_CACHE_PRIMARY").getD "" ≠ ""
  · rw [if_pos hp]
    have hchk := checkInstanceName_status
      { fs with cache_mgr_inst := kDefaultCacheMgrInstance }
      ((fs.opts.getValue "CVMFS_CACHE_PRIMARY").getD "")
    rcases hc : FileSystem.CheckInstanceName
        { fs with cache_mgr_inst := kDefaultCacheMgrInstance }
        ((fs.opts.getValue "CVMFS_CACHE_PRIMARY").getD "")
        with ⟨bn, fsn⟩
    rw [hc] at hchk
    simp only [hc]
    by_cases hbn : bn = true
    · have hS := setupCacheMgr_status env fuel
        { fsn with cache_mgr_inst :=
          (fs.opts.getValue "CVMFS_CACHE_PRIMARY").getD "" }
        ((fs.opts.getValue "CVMFS_CACHE_PRIMARY").getD "")
      rcases hcr : FileSystem.SetupCacheMgr env fuel
          { fsn with cache_mgr_inst :=
            (fs.opts.getValue "CVMFS_CACHE_PRIMARY").getD "" }
          ((fs.opts.getValue "CVMFS_CACHE_PRIMARY").getD "")
          with ⟨cm, fsr, evr⟩
      rw [hcr] at hS
      simp only [hbn, hcr]
      rcases hchk with h1 | h1
      · rcases hS with h2 | h2
        · left
          simp_all
        · right
          cases cm <;> simp_all
      · simp_all
    · simp only [Bool.not_eq_true] at hbn
      simp only [hbn]
      rcases hchk with h1 | h1 <;> simp_all
  · rw [if_neg hp]
    have hS := setupCacheMgr_status env fuel
      { fs with cache_mgr_inst := kDefaultCacheMgrInstance }
      kDefaultCacheMgrInstance
    rcases hcr : FileSystem.SetupCacheMgr env fuel
        { fs with cache_mgr_inst := kDefaultCacheMgrInstance }
        kDefaultCacheMgrInstance
        with ⟨cm, fsr, evr⟩
    rw [hcr] at hS
    simp only [hcr]
    rcases hS with h2 | h2
    · left; simp_all
    · right; cases cm <;> simp_all

/-- `SetupNfsMaps` either preserves the boot status or fails non-ok. -/
theorem setupNfsMaps_status (env : Env) (fs : FileSystem) :
    (FileSystem.SetupNfsMaps env fs).2.1.boot_status = fs.boot_status ∨
    ((FileSystem.SetupNfsMaps env fs).1 = false ∧
     (FileSystem.SetupNfsMaps env fs).2.1.boot_status ≠ .kFailOk) := by
  unfold FileSystem.SetupNfsMaps
  by_cases hn : env.nfsSupportCompiled = true
  · by_cases hha : fs.nfs_mode_ha = true <;>
      simp only [hn, hha, not_true, not_false_iff, Bool.not_eq_true,
        Bool.false_eq_true, Bool.true_eq_false, if_true, if_false,
        ite_true, ite_false, eq_self_iff_true, not_true_eq_false,
        not_false_eq_true] <;>
      try dsimp only []
    all_goals
      cases hcm : fs.cache_mgr with
      | none => split_ifs <;> simp_all
      | some cm =>
        cases cm with
        | posix cache_path alien avoid_rename =>
          try dsimp only []
          by_cases hm : fs.nfs_mode_maps = true
          · rw [if_neg (by simp [hm])]
            by_cases hfe :
                env.fileExists (cache_path ++ "/no_nfs_maps." ++ fs.name) = true
            · rw [if_pos hfe]
              right
              exact ⟨rfl, by simp⟩
            · rw [if_neg hfe]
              split_ifs <;> simp_all
          · rw [if_pos (by simp [hm])]
            left
            rfl
        | ram size_bytes nfiles alloc => split_ifs <;> simp_all
        | tiered upper lower => split_ifs <;> simp_all
        | external fd_connection nfiles => split_ifs <;> simp_all
  · simp [hn]

/-- `FileSystem::Create` written out over its stages (definitional). -/
theorem fsCreate_eq_stages (env : Env) (info : FileSystemInfo) (fuel : Nat) :
    FileSystem.Create env info fuel =
      (if ¬ (FileSystem.stageNfs info).1 then
        ((FileSystem.stageNfs info).2, [])
      else if ¬ (FileSystem.stageWorkspace env info).1 then
        ((FileSystem.stageWorkspace env info).2.1,
         (FileSystem.stageWorkspace env info).2.2)
      else if ¬ (FileSystem.stageCache env info fuel).1 then
        ((FileSystem.stageCache env info fuel).2.1,
         (FileSystem.stageWorkspace env info).2.2 ++
           (FileSystem.stageCache env info fuel).2.2)
      else if ¬ (FileSystem.stageNfsMaps env info fuel).1 then
        ((FileSystem.stageNfsMaps env info fuel).2.1,
         (FileSystem.stageWorkspace env info).2.2 ++
           (FileSystem.stageCache env info fuel).2.2 ++
           (FileSystem.stageUuid env info fuel).2 ++
           (FileSystem.stageNfsMaps env info fuel).2.2)
      else
        ({ (FileSystem.stageNfsMaps env info fuel).2.1 with
             has_custom_sqlitevfs := true, boot_status := .kFailOk },
         (FileSystem.stageWorkspace env info).2.2 ++
           (FileSystem.stageCache env info fuel).2.2 ++
           (FileSystem.stageUuid env info fuel).2 ++
           (FileSystem.stageNfsMaps env info fuel).2.2 ++
           [.registerVfs])) := rfl

/-- `MountPoint::Create` written out over its stages (definitional). -/
theorem mpCreate_eq_stages (env : Env) (fqrn : String)
    (fsys : FileSystem) (om : Option OptionsMgr) :
    MountPoint.Create env fqrn fsys om =
      (if ¬ (MountPoint.stageSignature env fqrn fsys om).1 then
        ((MountPoint.stageSignature env fqrn fsys om).2.1,
         (MountPoint.stageSignature env fqrn fsys om).2.2)
      else if ¬ (MountPoint.stageBlacklist env fqrn fsys om).1 then
        ((MountPoint.stageBlacklist env fqrn fsys om).2.1,
         (MountPoint.stageSignature env fqrn fsys om).2.2 ++
           (MountPoint.stageBlacklist env fqrn fsys om).2.2)
      else if ¬ (MountPoint.stageDownload env fqrn fsys om).1 then
        ((MountPoint.stageDownload env fqrn fsys om).2.1,
         (MountPoint.stageSignature env fqrn fsys om).2.2 ++
           (MountPoint.stageBlacklist env fqrn fsys om).2.2 ++
           (MountPoint.stageDownload env fqrn fsys om).2.2)
      else if ¬ (MountPoint.stageCatalog env fqrn fsys om).1 then
        ((MountPoint.stageCatalog env fqrn fsys om).2.1,
         (MountPoint.stageSignature env fqrn fsys om).2.2 ++
           (MountPoint.stageBlacklist env fqrn fsys om).2.2 ++
           (MountPoint.stageDownload env fqrn fsys om).2.2 ++
           (MountPoint.stageFetchers env fqrn fsys om).2 ++
           (MountPoint.stageCatalog env fqrn fsys om).2.2)
      else if ¬ (MountPoint.stageTracer env fqrn fsys om).1 then
        ((MountPoint.stageTracer env fqrn fsys om).2.1,
         (MountPoint.stageSignature env fqrn fsys om).2.2 ++
           (MountPoint.stageBlacklist env fqrn fsys om).2.2 ++
           (MountPoint.stageDownload env fqrn fsys om).2.2 ++
           (MountPoint.stageFetchers env fqrn fsys om).2 ++
           (MountPoint.stageCatalog env fqrn fsys om).2.2 ++
           (MountPoint.stageTracer env fqrn fsys om).2.2)
      else
        ({ MountPoint.SetupBehavior env
             (MountPoint.CreateTables
               (MountPoint.ReEvaluateAuthz env
                 (MountPoint.stageTracer env fqrn fsys om).2.1)) with
             boot_status := .kFailOk },
         (MountPoint.stageSignature env fqrn fsys om).2.2 ++
           (MountPoint.stageBlacklist env fqrn fsys om).2.2 ++
           (MountPoint.stageDownload env fqrn fsys om).2.2 ++
           (MountPoint.stageFetchers env fqrn fsys om).2 ++
           (MountPoint.stageCatalog env fqrn fsys om).2.2 ++
           (MountPoint.stageTracer env fqrn fsys om).2.2)) := rfl

/-- `CreateSignatureManager` either preserves the boot status or fails
non-ok. -/
theorem createSignatureManager_status (env : Env) (mp : MountPoint) :
    (MountPoint.CreateSignatureManager env mp).2.1.boot_status =
      mp.boot_status ∨
    ((MountPoint.CreateSignatureManager env mp).1 = false ∧
     (MountPoint.CreateSignatureManager env mp).2.1.boot_status ≠
       .kFailOk) := by
  unfold MountPoint.CreateSignatureManager
  try dsimp only []
  cases h : mp.opts.getValue "CVMFS_TRUSTED_CERTS" with
  | none =>
    try dsimp only []
    split_ifs <;> simp_all
  | some v =>
    try dsimp only []
    split_ifs <;> simp_all

/-- `CheckBlacklists` either preserves the boot status or fails
non-ok. -/
theorem checkBlacklists_status (env : Env) (mp : MountPoint) :
    (MountPoint.CheckBlacklists env mp).2.1.boot_status = mp.boot_status ∨
    ((MountPoint.CheckBlacklists env mp).1 = false ∧
     (MountPoint.CheckBlacklists env mp).2.1.boot_status ≠ .kFailOk) := by
  unfold MountPoint.CheckBlacklists
  try dsimp only []
  cases hc : mp.opts.hasConfigRepository mp.fqrn with
  | none =>
    try dsimp only []
    split_ifs <;> simp_all
  | some p =>
    try dsimp only []
    split_ifs <;> simp_all

/-- `SetupExternalDownloadMgr` either preserves the boot status or
fails non-ok. -/
theorem setupExternalDownloadMgr_status (env : Env) (mp : MountPoint) :
    (MountPoint.SetupExternalDownloadMgr env mp).2.1.boot_status =
      mp.boot_status ∨
    ((MountPoint.SetupExternalDownloadMgr env mp).1 = false ∧
     (MountPoint.SetupExternalDownloadMgr env mp).2.1.boot_status ≠
       .kFailOk) := by
  unfold MountPoint.SetupExternalDownloadMgr
  try dsimp only []
  cases h : mp.opts.getValue "CVMFS_EXTERNAL_HTTP_PROXY" with
  | none =>
    try dsimp only []
    simp
  | some v =>
    try dsimp only []
    split_ifs <;> simp_all

/-- `CreateDownloadManagers` either preserves the boot status or fails
non-ok. -/
theorem createDownloadManagers_status (env : Env) (mp : MountPoint) :
    (MountPoint.CreateDownloadManagers env mp).2.1.boot_status =
      mp.boot_status ∨
    ((MountPoint.CreateDownloadManagers env mp).1 = false ∧
     (MountPoint.CreateDownloadManagers env mp).2.1.boot_status ≠
       .kFailOk) := by
  have hx := setupExternalDownloadMgr_status env
    { mp with has_download_mgr := true }
  rcases hxr : MountPoint.SetupExternalDownloadMgr env
      { mp with has_download_mgr := true } with ⟨bx, mpx, evx⟩
  rw [hxr] at hx
  try dsimp only [] at hx
  unfold MountPoint.CreateDownloadManagers
  try dsimp only []
  by_cases hr : env.resolveProxyDescription
      ((mp.opts.getValue "CVMFS_HTTP_PROXY").getD "") = ""
  · rw [if_pos hr]
    right
    exact ⟨rfl, by simp⟩
  · rw [if_neg hr]
    simp only [hxr]
    rcases hx with h | h <;> simp_all

/-- `SetupOwnerMaps` either preserves the boot status or fails
non-ok. -/
theorem setupOwnerMaps_status (env : Env) (mp : MountPoint) :
    (MountPoint.SetupOwnerMaps env mp).2.boot_status = mp.boot_status ∨
    ((MountPoint.SetupOwnerMaps env mp).1 = false ∧
     (MountPoint.SetupOwnerMaps env mp).2.boot_status ≠ .kFailOk) := by
  unfold MountPoint.SetupOwnerMaps
  cases h1 : mp.opts.getValue "CVMFS_UID_MAP" with
  | none =>
    try dsimp only []
    cases h2 : mp.opts.getValue "CVMFS_GID_MAP" with
    | none => simp
    | some w =>
      try dsimp only []
      split_ifs <;> simp_all
  | some v =>
    try dsimp only []
    cases h2 : mp.opts.getValue "CVMFS_GID_MAP" with
    | none =>
      try dsimp only []
      split_ifs <;> simp_all
    | some w =>
      try dsimp only []
      split_ifs <;> simp_all

/-- `FetchHistory` either preserves the boot status or fails non-ok. -/
theorem fetchHistory_status (env : Env) (mp : MountPoint) :
    (MountPoint.FetchHistory env mp).2.1.boot_status = mp.boot_status ∨
    ((MountPoint.FetchHistory env mp).1 = none ∧
     (MountPoint.FetchHistory env mp).2.1.boot_status ≠ .kFailOk) := by
  unfold MountPoint.FetchHistory
  split_ifs <;> simp_all

/-- `DetermineRootHash` either preserves the boot status or fails
non-ok. -/
theorem determineRootHash_status (env : Env) (mp : MountPoint) :
    (MountPoint.DetermineRootHash env mp).2.1.boot_status =
      mp.boot_status ∨
    ((MountPoint.DetermineRootHash env mp).1 = none ∧
     (MountPoint.DetermineRootHash env mp).2.1.boot_status ≠
       .kFailOk) := by
  unfold MountPoint.DetermineRootHash
  cases hrt : mp.opts.getValue "CVMFS_ROOT_HASH" with
  | some v => left; rfl
  | none =>
    try dsimp only []
    by_cases hnd : (¬ mp.opts.isDefined "CVMFS_REPOSITORY_TAG" = true ∧
        ¬ mp.opts.isDefined "CVMFS_REPOSITORY_DATE" = true)
    · rw [if_pos hnd]
      left; rfl
    · rw [if_neg hnd]
      have hF := fetchHistory_status env mp
      rcases hfr : MountPoint.FetchHistory env mp with ⟨oh, mph, evh⟩
      rw [hfr] at hF
      try dsimp only [] at hF
      simp only [hfr]
      try dsimp only []
      cases oh with
      | none =>
        rcases hF with hF | hF
        · left; exact hF
        · right; exact ⟨rfl, hF.2⟩
      | some history_path =>
        rcases hF with hF | hF
        · try dsimp only []
          cases hdb : env.sqliteHistoryOpen history_path with
          | none =>
            right
            exact ⟨rfl, by simp⟩
          | some tag_db =>
            try dsimp only []
            cases htag : mph.opts.getValue "CVMFS_REPOSITORY_TAG" with
            | none =>
              try dsimp only []
              by_cases ht0 : env.isoTimestamp2UtcTime
                  ((mph.opts.getValue "CVMFS_REPOSITORY_DATE").getD "") = 0
              · rw [if_pos ht0]
                right
                exact ⟨rfl, by simp⟩
              · rw [if_neg ht0]
                cases hgd : tag_db.getByDate
                    (env.isoTimestamp2UtcTime
                      ((mph.opts.getValue "CVMFS_REPOSITORY_DATE").getD ""))
                      with
                  | none =>
                    right
                    exact ⟨rfl, by simp⟩
                  | some tag =>
                    left
                    simpa using hF
            | some t =>
              try dsimp only []
              cases hgn : tag_db.getByName t with
              | none =>
                right
                exact ⟨rfl, by simp⟩
              | some tag =>
                left
                simpa using hF
        · simp at hF

/-- `CreateCatalogManager` either preserves the boot status or fails
non-ok. -/
theorem createCatalogManager_status (env : Env) (mp : MountPoint) :
    (MountPoint.CreateCatalogManager env mp).2.1.boot_status =
      mp.boot_status ∨
    ((MountPoint.CreateCatalogManager env mp).1 = false ∧
     (MountPoint.CreateCatalogManager env mp).2.1.boot_status ≠
       .kFailOk) := by
  have hO := setupOwnerMaps_status env
    (MountPoint.SetupInodeAnnot { mp with has_catalog_mgr := true })
  rcases hor : MountPoint.SetupOwnerMaps env
      (MountPoint.SetupInodeAnnot { mp with has_catalog_mgr := true })
      with ⟨bo, mpo⟩
  rw [hor] at hO
  try dsimp only [] at hO
  have hobs : (MountPoint.SetupInodeAnnot
      { mp with has_catalog_mgr := true }).boot_status = mp.boot_status := rfl
  rw [hobs] at hO
  unfold MountPoint.CreateCatalogManager
  try dsimp only []
  simp only [hor]
  try dsimp only []
  by_cases hbo : bo = true
  · rw [if_neg (by simp [hbo])]
    have hmpo : mpo.boot_status = mp.boot_status := by
      rcases hO with h | h
      · exact h
      · rw [hbo] at h; simp at h
    have hR := determineRootHash_status env mpo
    rcases hrr : MountPoint.DetermineRootHash env mpo with ⟨orh, mpr, evr⟩
    rw [hrr] at hR
    try dsimp only [] at hR
    simp only [hrr]
    try dsimp only []
    cases orh with
    | none =>
      rcases hR with h | h
      · left; simp_all
      · right; simp_all
    | some root_hash =>
      rcases hR with h | h
      · try dsimp only []
        split_ifs <;> simp_all
      · simp at h
  · rw [if_pos (by simp [hbo])]
    rcases hO with h | h
    · left; simpa using h
    · right; exact ⟨rfl, h.2⟩

/-- `CreateTracer` either preserves the boot status or fails non-ok. -/
theorem createTracer_status (mp : MountPoint) :
    (MountPoint.CreateTracer mp).2.1.boot_status = mp.boot_status ∨
    ((MountPoint.CreateTracer mp).1 = false ∧
     (MountPoint.CreateTracer mp).2.1.boot_status ≠ .kFailOk) := by
  unfold MountPoint.CreateTracer
  try dsimp only []
  cases h : mp.opts.getValue "CVMFS_TRACEFILE" with
  | none => simp
  | some f =>
    try dsimp only []
    split_ifs <;> simp_all

/-- `FileSystem::Create`: the boot status is ok iff every fallible
stage succeeded, and the sequence truncates at the first failing stage
(helper for the C1 theorem). -/
theorem fsCreate_staged (env : Env) (info : FileSystemInfo) (fuel : Nat) :
    ((FileSystem.Create env info fuel).1.boot_status = .kFailOk ↔
       (FileSystem.stageNfs info).1 = true ∧
       (FileSystem.stageWorkspace env info).1 = true ∧
       (FileSystem.stageCache env info fuel).1 = true ∧
       (FileSystem.stageNfsMaps env info fuel).1 = true) ∧
    ((FileSystem.stageNfs info).1 = false →
       FileSystem.Create env info fuel =
         ((FileSystem.stageNfs info).2, [])) ∧
    ((FileSystem.stageNfs info).1 = true →
     (FileSystem.stageWorkspace env info).1 = false →
       FileSystem.Create env info fuel =
         ((FileSystem.stageWorkspace env info).2.1,
          (FileSystem.stageWorkspace env info).2.2)) ∧
    ((FileSystem.stageNfs info).1 = true →
     (FileSystem.stageWorkspace env info).1 = true →
     (FileSystem.stageCache env info fuel).1 = false →
       FileSystem.Create env info fuel =
         ((FileSystem.stageCache env info fuel).2.1,
          (FileSystem.stageWorkspace env info).2.2 ++
            (FileSystem.stageCache env info fuel).2.2)) ∧
    ((FileSystem.stageNfs info).1 = true →
     (FileSystem.stageWorkspace env info).1 = true →
     (FileSystem.stageCache env info fuel).1 = true →
     (FileSystem.stageNfsMaps env info fuel).1 = false →
       FileSystem.Create env info fuel =
         ((FileSystem.stageNfsMaps env info fuel).2.1,
          (FileSystem.stageWorkspace env info).2.2 ++
            (FileSystem.stageCache env info fuel).2.2 ++
            (FileSystem.stageUuid env info fuel).2 ++
            (FileSystem.stageNfsMaps env info fuel).2.2)) := by
  have hc := fsCreate_eq_stages env info fuel
  rcases h1 : FileSystem.stageNfs info with ⟨b1, fs1⟩
  rcases h2 : FileSystem.stageWorkspace env info with ⟨b2, fs2, ev2⟩
  rcases h3 : FileSystem.stageCache env info fuel with ⟨b3, fs3, ev3⟩
  rcases h4 : FileSystem.stageUuid env info fuel with ⟨fs4, ev4⟩
  rcases h5 : FileSystem.stageNfsMaps env info fuel with ⟨b5, fs5, ev5⟩
  have e1 : FileSystem.DetermineNfsMode (FileSystem.init info) =
      (b1, fs1) := h1
  have e2 : FileSystem.SetupWorkspace env fs1 = (b2, fs2, ev2) := by
    have h := h2
    unfold FileSystem.stageWorkspace at h
    rw [h1] at h
    exact h
  have e3 : FileSystem.TriageCacheMgr env fuel fs2 = (b3, fs3, ev3) := by
    have h := h3
    unfold FileSystem.stageCache at h
    rw [h2] at h
    exact h
  have e4 : FileSystem.SetupUuid fs3 = (fs4, ev4) := by
    have h := h4
    unfold FileSystem.stageUuid at h
    rw [h3] at h
    exact h
  have e5 : FileSystem.SetupNfsMaps env fs4 = (b5, fs5, ev5) := by
    have h := h5
    unfold FileSystem.stageNfsMaps at h
    rw [h4] at h
    exact h
  have q1 : fs1.boot_status ≠ .kFailOk := by
    have s := determineNfsMode_status (FileSystem.init info)
    rw [e1] at s
    try dsimp only [] at s
    rcases s with s | s
    · rw [s]; simp [FileSystem.init]
    · exact s.2
  have q2 : fs2.boot_status ≠ .kFailOk := by
    have s := setupWorkspace_status env fs1
    rw [e2] at s
    try dsimp only [] at s
    rcases s with s | s
    · rw [s]; exact q1
    · exact s.2
  have q3 : fs3.boot_status ≠ .kFailOk := by
    have s := triageCacheMgr_status env fuel fs2
    rw [e3] at s
    try dsimp only [] at s
    rcases s with s | s
    · rw [s]; exact q2
    · exact s.2
  have q4 : fs4.boot_status = fs3.boot_status := by
    have h := congrArg (fun p => p.1.boot_status) e4.symm
    simpa [FileSystem.SetupUuid] using h
  have q5 : fs5.boot_status ≠ .kFailOk := by
    have s := setupNfsMaps_status env fs4
    rw [e5] at s
    try dsimp only [] at s
    rcases s with s | s
    · rw [s, q4]; exact q3
    · exact s.2
  rw [h1, h2, h3, h4, h5] at hc
  try dsimp only [] at hc
  try dsimp only []
  cases b1 <;> cases b2 <;> cases b3 <;> cases b5 <;> simp_all

/-- `MountPoint::Create`: the boot status is ok iff every fallible
stage succeeded, and the sequence truncates at the first failing stage
(helper for the C1 theorem). -/
theorem mpCreate_staged (env : Env) (fqrn : String) (fsys : FileSystem)
    (om : Option OptionsMgr) :
    ((MountPoint.Create env fqrn fsys om).1.boot_status = .kFailOk ↔
       (MountPoint.stageSignature env fqrn fsys om).1 = true ∧
       (MountPoint.stageBlacklist env fqrn fsys om).1 = true ∧
       (MountPoint.stageDownload env fqrn fsys om).1 = true ∧
       (MountPoint.stageCatalog env fqrn fsys om).1 = true ∧
       (MountPoint.stageTracer env fqrn fsys om).1 = true) ∧
    ((MountPoint.stageSignature env fqrn fsys om).1 = false →
       MountPoint.Create env fqrn fsys om =
         ((MountPoint.stageSignature env fqrn fsys om).2.1,
          (MountPoint.stageSignature env fqrn fsys om).2.2)) ∧
    ((MountPoint.stageSignature env fqrn fsys om).1 = true →
     (MountPoint.stageBlacklist env fqrn fsys om).1 = false →
       MountPoint.Create env fqrn fsys om =
         ((MountPoint.stageBlacklist env fqrn fsys om).2.1,
          (MountPoint.stageSignature env fqrn fsys om).2.2 ++
            (MountPoint.stageBlacklist env fqrn fsys om).2.2)) ∧
    ((MountPoint.stageSignature env fqrn fsys om).1 = true →
     (MountPoint.stageBlacklist env fqrn fsys om).1 = true →
     (MountPoint.stageDownload env fqrn fsys om).1 = false →
       MountPoint.Create env fqrn fsys om =
         ((MountPoint.stageDownload env fqrn fsys om).2.1,
          (MountPoint.stageSignature env fqrn fsys om).2.2 ++
            (MountPoint.stageBlacklist env fqrn fsys om).2.2 ++
            (MountPoint.stageDownload env fqrn fsys om).2.2)) ∧
    ((MountPoint.stageSignature env fqrn fsys om).1 = true →
     (MountPoint.stageBlacklist env fqrn fsys om).1 = true →
     (MountPoint.stageDownload env fqrn fsys om).1 = true →
     (MountPoint.stageCatalog env fqrn fsys om).1 = false →
       MountPoint.Create env fqrn fsys om =
         ((MountPoint.stageCatalog env fqrn fsys om).2.1,
          (MountPoint.stageSignature env fqrn fsys om).2.2 ++
            (MountPoint.stageBlacklist env fqrn fsys om).2.2 ++
            (MountPoint.stageDownload env fqrn fsys om).2.2 ++
            (MountPoint.stageFetchers env fqrn fsys om).2 ++
            (MountPoint.stageCatalog env fqrn fsys om).2.2)) ∧
    ((MountPoint.stageSignature env fqrn fsys om).1 = true →
     (MountPoint.stageBlacklist env fqrn fsys om).1 = true →
     (MountPoint.stageDownload env fqrn fsys om).1 = true →
     (MountPoint.stageCatalog env fqrn fsys om).1 = true →
     (MountPoint.stageTracer env fqrn fsys om).1 = false →
       MountPoint.Create env fqrn fsys om =
         ((MountPoint.stageTracer env fqrn fsys om).2.1,
          (MountPoint.stageSignature env fqrn fsys om).2.2 ++
            (MountPoint.stageBlacklist env fqrn fsys om).2.2 ++
            (MountPoint.stageDownload env fqrn fsys om).2.2 ++
            (MountPoint.stageFetchers env fqrn fsys om).2 ++
            (MountPoint.stageCatalog env fqrn fsys om).2.2 ++
            (MountPoint.stageTracer env fqrn fsys om).2.2)) := by
  have hc := mpCreate_eq_stages env fqrn fsys om
  rcases h1 : MountPoint.stageSignature env fqrn fsys om with ⟨b1, mp1, ev1⟩
  rcases h2 : MountPoint.stageBlacklist env fqrn fsys om with ⟨b2, mp2, ev2⟩
  rcases h3 : MountPoint.stageDownload env fqrn fsys om with ⟨b3, mp3, ev3⟩
  rcases h4 : MountPoint.stageFetchers env fqrn fsys om with ⟨mp4, ev4⟩
  rcases h5 : MountPoint.stageCatalog env fqrn fsys om with ⟨b5, mp5, ev5⟩
  rcases h6 : MountPoint.stageTracer env fqrn fsys om with ⟨b6, mp6, ev6⟩
  have e1 : MountPoint.CreateSignatureManager env
      (MountPoint.initStats env fqrn fsys om) = (b1, mp1, ev1) := h1
  have e2 : MountPoint.CheckBlacklists env mp1 = (b2, mp2, ev2) := by
    have h := h2
    unfold MountPoint.stageBlacklist at h
    rw [h1] at h
    exact h
  have e3 : MountPoint.CreateDownloadManagers env mp2 = (b3, mp3, ev3) := by
    have h := h3
    unfold MountPoint.stageDownload at h
    rw [h2] at h
    exact h
  have e4 : MountPoint.CreateFetchers mp3 = (mp4, ev4) := by
    have h := h4
    unfold MountPoint.stageFetchers at h
    rw [h3] at h
    exact h
  have e5 : MountPoint.CreateCatalogManager env mp4 = (b5, mp5, ev5) := by
    have h := h5
    unfold MountPoint.stageCatalog at h
    rw [h4] at h
    exact h
  have e6 : MountPoint.CreateTracer mp5 = (b6, mp6, ev6) := by
    have h := h6
    unfold MountPoint.stageTracer at h
    rw [h5] at h
    exact h
  have q1 : mp1.boot_status ≠ .kFailOk := by
    have s := createSignatureManager_status env
      (MountPoint.initStats env fqrn fsys om)
    rw [e1] at s
    try dsimp only [] at s
    rcases s with s | s
    · rw [s]; simp [MountPoint.initStats, MountPoint.init]
    · exact s.2
  have q2 : mp2.boot_status ≠ .kFailOk := by
    have s := checkBlacklists_status env mp1
    rw [e2] at s
    try dsimp only [] at s
    rcases s with s | s
    · rw [s]; exact q1
    · exact s.2
  have q3 : mp3.boot_status ≠ .kFailOk := by
    have s := createDownloadManagers_status env mp2
    rw [e3] at s
    try dsimp only [] at s
    rcases s with s | s
    · rw [s]; exact q2
    · exact s.2
  have q4 : mp4.boot_status = mp3.boot_status := by
    have h := congrArg (fun p => p.1.boot_status) e4.symm
    simpa [MountPoint.CreateFetchers] using h
  have q5 : mp5.boot_status ≠ .kFailOk := by
    have s := createCatalogManager_status env mp4
    rw [e5] at s
    try dsimp only [] at s
    rcases s with s | s
    · rw [s, q4]; exact q3
    · exact s.2
  have q6 : mp6.boot_status ≠ .kFailOk := by
    have s := createTracer_status mp5
    rw [e6] at s
    try dsimp only [] at s
    rcases s with s | s
    · rw [s]; exact q5
    · exact s.2
  rw [h1, h2, h3, h4, h5, h6] at hc
  try dsimp only [] at hc
  try dsimp only []
  cases b1 <;> cases b2 <;> cases b3 <;> cases b5 <;> cases b6 <;> simp_all

/-- C1: `FileSystem::Create` and `MountPoint::Create` always return the
context object, and its boot status equals the ok code iff every stage
of their ordered construction sequences succeeded; on the first failing
stage the sequence halts — the returned context is exactly that stage's
output state (carrying the stage's recorded failure code and message,
non-ok by the iff) and the returned event log is exactly the
concatenated side effects of the already-completed stages, none of them
undone and no later stage executed. -/
theorem c1_staged_construction (env : Env) (info : FileSystemInfo)
    (fuel : Nat) (fqrn : String) (fsys : FileSystem)
    (om : Option OptionsMgr) :
    (((FileSystem.Create env info fuel).1.boot_status = .kFailOk ↔
        (FileSystem.stageNfs info).1 = true ∧
        (FileSystem.stageWorkspace env info).1 = true ∧
        (FileSystem.stageCache env info fuel).1 = true ∧
        (FileSystem.stageNfsMaps env info fuel).1 = true) ∧
     ((FileSystem.stageNfs info).1 = false →
        FileSystem.Create env info fuel =
          ((FileSystem.stageNfs info).2, [])) ∧
     ((FileSystem.stageNfs info).1 = true →
      (FileSystem.stageWorkspace env info).1 = false →
        FileSystem.Create env info fuel =
          ((FileSystem.stageWorkspace env info).2.1,
           (FileSystem.stageWorkspace env info).2.2)) ∧
     ((FileSystem.stageNfs info).1 = true →
      (FileSystem.stageWorkspace env info).1 = true →
      (FileSystem.stageCache env info fuel).1 = false →
        FileSystem.Create env info fuel =
          ((FileSystem.stageCache env info fuel).2.1,
           (FileSystem.stageWorkspace env info).2.2 ++
             (FileSystem.stageCache env info fuel).2.2)) ∧
     ((FileSystem.stageNfs info).1 = true →
      (FileSystem.stageWorkspace env info).1 = true →
      (FileSystem.stageCache env info fuel).1 = true →
      (FileSystem.stageNfsMaps env info fuel).1 = false →
        FileSystem.Create env info fuel =
          ((FileSystem.stageNfsMaps env info fuel).2.1,
           (FileSystem.stageWorkspace env info).2.2 ++
             (FileSystem.stageCache env info fuel).2.2 ++
             (FileSystem.stageUuid env info fuel).2 ++
             (FileSystem.stageNfsMaps env info fuel).2.2))) ∧
    (((MountPoint.Create env fqrn fsys om).1.boot_status = .kFailOk ↔
        (MountPoint.stageSignature env fqrn fsys om).1 = true ∧
        (MountPoint.stageBlacklist env fqrn fsys om).1 = true ∧
        (MountPoint.stageDownload env fqrn fsys om).1 = true ∧
        (MountPoint.stageCatalog env fqrn fsys om).1 = true ∧
        (MountPoint.stageTracer env fqrn fsys om).1 = true) ∧
     ((MountPoint.stageSignature env fqrn fsys om).1 = false →
        MountPoint.Create env fqrn fsys om =
          ((MountPoint.stageSignature env fqrn fsys om).2.1,
           (MountPoint.stageSignature env fqrn fsys om).2.2)) ∧
     ((MountPoint.stageSignature env fqrn fsys om).1 = true →
      (MountPoint.stageBlacklist env fqrn fsys om).1 = false →
        MountPoint.Create env fqrn fsys om =
          ((MountPoint.stageBlacklist env fqrn fsys om).2.1,
           (MountPoint.stageSignature env fqrn fsys om).2.2 ++
             (MountPoint.stageBlacklist env fqrn fsys om).2.2)) ∧
     ((MountPoint.stageSignature env fqrn fsys om).1 = true →
      (MountPoint.stageBlacklist env fqrn fsys om).1 = true →
      (MountPoint.stageDownload env fqrn fsys om).1 = false →
        MountPoint.Create env fqrn fsys om =
          ((MountPoint.stageDownload env fqrn fsys om).2.1,
           (MountPoint.stageSignature env fqrn fsys om).2.2 ++
             (MountPoint.stageBlacklist env fqrn fsys om).2.2 ++
             (MountPoint.stageDownload env fqrn fsys om).2.2)) ∧
     ((MountPoint.stageSignature env fqrn fsys om).1 = true →
      (MountPoint.stageBlacklist env fqrn fsys om).1 = true →
      (MountPoint.stageDownload env fqrn fsys om).1 = true →
      (MountPoint.stageCatalog env fqrn fsys om).1 = false →
        MountPoint.Create env fqrn fsys om =
          ((MountPoint.stageCatalog env fqrn fsys om).2.1,
           (MountPoint.stageSignature env fqrn fsys om).2.2 ++
             (MountPoint.stageBlacklist env fqrn fsys om).2.2 ++
             (MountPoint.stageDownload env fqrn fsys om).2.2 ++
             (MountPoint.stageFetchers env fqrn fsys om).2 ++
             (MountPoint.stageCatalog env fqrn fsys om).2.2)) ∧
     ((MountPoint.stageSignature env fqrn fsys om).1 = true →
      (MountPoint.stageBlacklist env fqrn fsys om).1 = true →
      (MountPoint.stageDownload env fqrn fsys om).1 = true →
      (MountPoint.stageCatalog env fqrn fsys om).1 = true →
      (MountPoint.stageTracer env fqrn fsys om).1 = false →
        MountPoint.Create env fqrn fsys om =
          ((MountPoint.stageTracer env fqrn fsys om).2.1,
           (MountPoint.stageSignature env fqrn fsys om).2.2 ++
             (MountPoint.stageBlacklist env fqrn fsys om).2.2 ++
             (MountPoint.stageDownload env fqrn fsys om).2.2 ++
             (MountPoint.stageFetchers env fqrn fsys om).2 ++
             (MountPoint.stageCatalog env fqrn fsys om).2.2 ++
             (MountPoint.stageTracer env fqrn fsys om).2.2))) :=
  ⟨fsCreate_staged env info fuel, mpCreate_staged env fqrn fsys om⟩

/-- C1 witness: a concrete all-success bootstrap; both construction
sequences end with the ok boot status, obtained through the staged
theorem with every stage's success discharged by computation. -/
theorem c1_witness :
    (FileSystem.Create envA (infoOf (optsOf []) .kFsFuse false)
        5).1.boot_status = .kFailOk ∧
    (MountPoint.Create envA "test.cern.ch" fsA none).1.boot_status =
      .kFailOk :=
  ⟨(c1_staged_construction envA (infoOf (optsOf []) .kFsFuse false) 5
      "test.cern.ch" fsA none).1.1.mpr (by decide),
   (c1_staged_construction envA (infoOf (optsOf []) .kFsFuse false) 5
      "test.cern.ch" fsA none).2.1.mpr (by decide)⟩
